import Mathlib

/-! # webserial: a shallow embedding of the serial-port binding layer

The development embeds `src/serial-handle.cc` (the `SerialHandle` methods) and
`src/webserial.cc` (the N-API binding functions and their checking macros).

* The serial driver (libserialport) and the host runtime (N-API) are external.
  They are modelled as deterministic oracles: the driver answers each call as a
  function of the calls made so far, the host answers the k-th N-API call with a
  status.  Every driver call and every `napi_throw_error` is appended to a trace.
* The C macros `RETURN_ON_ERROR`, `SP_CHECK` and `NAPI_CHECK` substitute their
  argument textually.  They are embedded as functions taking the argument as a
  computation, which is run once for every occurrence in the macro body.
* `return` inside a macro leaves the enclosing function, so the rest of the
  function is passed to the macro as a continuation.
-/

namespace WebSerial

/-! ## Driver values (libserialport.h) -/

/-- The C type `enum sp_return`: zero is success, negative values are errors and
positive values are byte counts. -/
abbrev sp_return := Int

/-- The enumerator `SP_OK = 0` of `enum sp_return`, from the driver's public header
libserialport.h (the driver is not part of this repository). -/
def SP_OK : sp_return := 0
/-- The enumerator `SP_ERR_ARG = -1` of `enum sp_return` (libserialport.h). -/
def SP_ERR_ARG : sp_return := -1
/-- The enumerator `SP_ERR_FAIL = -2` of `enum sp_return` (libserialport.h). -/
def SP_ERR_FAIL : sp_return := -2
/-- The enumerator `SP_ERR_MEM = -3` of `enum sp_return` (libserialport.h). -/
def SP_ERR_MEM : sp_return := -3
/-- The enumerator `SP_ERR_SUPP = -4` of `enum sp_return` (libserialport.h). -/
def SP_ERR_SUPP : sp_return := -4

/-- The bit `SP_SIG_CTS = 1` of `enum sp_signal` (libserialport.h). -/
def SP_SIG_CTS : Nat := 1
/-- The bit `SP_SIG_DSR = 2` of `enum sp_signal` (libserialport.h). -/
def SP_SIG_DSR : Nat := 2
/-- The bit `SP_SIG_DCD = 4` of `enum sp_signal` (libserialport.h). -/
def SP_SIG_DCD : Nat := 4
/-- The bit `SP_SIG_RI = 8` of `enum sp_signal` (libserialport.h). -/
def SP_SIG_RI : Nat := 8

/-- The enumerator `SP_DTR_OFF` of `enum sp_dtr`. -/
def SP_DTR_OFF : Int := 0
/-- The enumerator `SP_DTR_ON` of `enum sp_dtr`. -/
def SP_DTR_ON : Int := 1
/-- The enumerator `SP_RTS_OFF` of `enum sp_rts`. -/
def SP_RTS_OFF : Int := 0
/-- The enumerator `SP_RTS_ON` of `enum sp_rts`. -/
def SP_RTS_ON : Int := 1

/-- A `struct sp_port*`: `none` is the null pointer, `some p` names a port. -/
abbrev sp_port := Option Nat

/-- The calls this repository makes into the driver, with the arguments that
identify them.  Ports of a port list are named by their index in the list. -/
inductive DriverCall where
  | sp_close (port : sp_port)
  | sp_free_port (port : sp_port)
  | sp_open (port : sp_port)
  | sp_new_config
  | sp_set_config_baudrate (baud_rate : Int)
  | sp_set_config_bits (data_bits : Int)
  | sp_set_config_parity (parity : Int)
  | sp_set_config_stopbits (stop_bits : Int)
  | sp_set_config_flowcontrol (flow_control : Int)
  | sp_set_config (port : sp_port)
  | sp_free_config
  | sp_get_signals (port : sp_port)
  | sp_set_dtr (port : sp_port) (dtr : Int)
  | sp_set_rts (port : sp_port) (rts : Int)
  | sp_end_break (port : sp_port)
  | sp_start_break (port : sp_port)
  | sp_nonblocking_read (port : sp_port) (size : Nat)
  | sp_nonblocking_write (port : sp_port) (size : Nat)
  | sp_flush_input (port : sp_port)
  | sp_flush_output (port : sp_port)
  | sp_drain (port : sp_port)
  | sp_list_ports
  | sp_get_port_name (index : Nat)
  | sp_get_port_usb_vid_pid (index : Nat)
  | sp_free_port_list
  | sp_last_error_message
  | sp_free_error_message
  deriving DecidableEq, Repr

/-- What the outside world can observe of a run: the driver calls and the
errors thrown into the host, in program order. -/
inductive Event where
  | driver (call : DriverCall)
  | napi_throw_error (message : String)
  deriving DecidableEq, Repr

/-- The fields of a `struct sp_port` of a port list that the accessors
`sp_get_port_name` and `sp_get_port_usb_vid_pid` read: the name (`none` is a
null name), the return code of the USB-ID lookup and the two ids it stores. -/
structure PortInfo where
  name : Option String
  vid_pid_return : sp_return
  usb_vid : Int
  usb_pid : Int
  deriving DecidableEq, Repr

/-- The driver as an oracle.  Each answer may depend on the whole history of
events so far, so a call repeated with the same arguments may answer anew. -/
structure Driver where
  /-- Return code of a call issued after the given history. -/
  ret : List Event → DriverCall → sp_return
  /-- The mask `sp_get_signals` stores. -/
  signal_mask : List Event → Nat
  /-- The null-terminated list `sp_list_ports` stores. -/
  port_list : List Event → List PortInfo
  /-- The string `sp_last_error_message` returns. -/
  last_error_message : List Event → String

/-! ## Host values (node_api.h) -/

/-- The C type `napi_status`; zero is `napi_ok`. -/
abbrev napi_status := Nat

/-- The enumerator `napi_ok`. -/
def napi_ok : napi_status := 0

/-- A `napi_value` handle: `null` is the C null pointer (also the model of a
handle that was never written), `object id` refers to a host object. -/
inductive napi_value where
  | null
  | undefined
  | boolean (b : Bool)
  | int32 (n : Int)
  | string (s : String)
  | object (id : Nat)
  deriving DecidableEq, Repr

/-- A host object: plain object, array (with holes) or array buffer. -/
structure JsObject where
  byteLength : Option Nat
  props : List (String × napi_value)
  elems : List (Option napi_value)
  deriving DecidableEq, Repr

/-- The host as an oracle: the status of the k-th N-API call, and what
`napi_is_exception_pending` and `napi_get_last_error_info` report after it. -/
structure Host where
  status : Nat → napi_status
  is_pending : Nat → Bool
  error_message : Nat → Option String

/-! ## Program state -/

/-- The state a binding call runs in: the handle's `port_` field, the trace of
events, the number of N-API calls made and the host objects created. -/
structure World where
  port_ : sp_port
  trace : List Event
  napi_calls : Nat
  heap : List JsObject
  deriving DecidableEq, Repr

/-- A computation that reads and updates the world. -/
abbrev M (α : Type) := World → α × World

/-- Issue a driver call: ask the oracle, then record the call. -/
def sp (d : Driver) (c : DriverCall) : M sp_return := fun w =>
  (d.ret w.trace c, { w with trace := w.trace ++ [Event.driver c] })

/-- The host call `napi_throw_error(env, NULL, message)`. -/
def napi_throw_error (message : String) (w : World) : World :=
  { w with trace := w.trace ++ [Event.napi_throw_error message] }

/-- Issue an N-API call: the host answers with the status of this call. -/
def napi (h : Host) : M napi_status := fun w =>
  (h.status w.napi_calls, { w with napi_calls := w.napi_calls + 1 })

/-! ## serial-handle.cc -/

/-- The macro `RETURN_ON_ERROR(result)` of serial-handle.cc:
`if ((result) != SP_OK) { return (result); }`.  The argument occurs twice in
the body, so it is run a second time when the first run is not `SP_OK`, and the
value returned is the value of the second run. -/
def RETURN_ON_ERROR (result : M sp_return) (k : M sp_return) : M sp_return := fun w =>
  let c := result w
  if c.1 ≠ SP_OK then result c.2 else k c.2

/-- The destructor `SerialHandle::~SerialHandle`: a port still held is closed and
freed, then the field is cleared.  (`napi_delete_reference` is a host call whose
status is ignored.) -/
def SerialHandle_destructor (d : Driver) (h : Host) (w : World) : World :=
  let w1 :=
    if w.port_ ≠ none then
      let w2 := (sp d (DriverCall.sp_close w.port_) w).2
      let w3 := (sp d (DriverCall.sp_free_port w2.port_) w2).2
      { w3 with port_ := none }
    else w
  (napi h w1).2

/-- The method `SerialHandle::set_port`. -/
def set_port (port : sp_port) (w : World) : World :=
  { w with port_ := port }

/-- The method `SerialHandle::close_port`: `r = sp_close(port_); port_ = nullptr;
return r;`. -/
def close_port (d : Driver) : M sp_return := fun w =>
  let c := sp d (DriverCall.sp_close w.port_) w
  (c.1, { c.2 with port_ := none })

/-- The label `close_port:` of `open_port`: close the port again when `r` is an
error, then return `r`. -/
def open_port_close_port (d : Driver) (r : sp_return) : M sp_return := fun w =>
  if r ≠ SP_OK then (r, (sp d (DriverCall.sp_close w.port_) w).2) else (r, w)

/-- The label `free_config:` of `open_port`: free the configuration object and
fall through to `close_port:`. -/
def open_port_free_config (d : Driver) (r : sp_return) : M sp_return := fun w =>
  open_port_close_port d r (sp d DriverCall.sp_free_config w).2

/-- The method `SerialHandle::open_port`. -/
def open_port (d : Driver) (baud_rate data_bits stop_bits parity flow_control : Int) :
    M sp_return := fun w =>
  let c0 := sp d (DriverCall.sp_open w.port_) w
  if c0.1 ≠ SP_OK then c0
  else
    let c1 := sp d DriverCall.sp_new_config c0.2
    if c1.1 ≠ SP_OK then open_port_close_port d c1.1 c1.2
    else
      let c2 := sp d (DriverCall.sp_set_config_baudrate baud_rate) c1.2
      if c2.1 ≠ SP_OK then open_port_free_config d c2.1 c2.2
      else
        let c3 := sp d (DriverCall.sp_set_config_bits data_bits) c2.2
        if c3.1 ≠ SP_OK then open_port_free_config d c3.1 c3.2
        else
          let c4 := sp d (DriverCall.sp_set_config_parity parity) c3.2
          if c4.1 ≠ SP_OK then open_port_free_config d c4.1 c4.2
          else
            let c5 := sp d (DriverCall.sp_set_config_stopbits stop_bits) c4.2
            if c5.1 ≠ SP_OK then open_port_free_config d c5.1 c5.2
            else
              let c6 := sp d (DriverCall.sp_set_config_flowcontrol flow_control) c5.2
              if c6.1 ≠ SP_OK then open_port_free_config d c6.1 c6.2
              else
                let c7 := sp d (DriverCall.sp_set_config c6.2.port_) c6.2
                open_port_free_config d c7.1 c7.2

/-- The out-parameters of `get_signals`. -/
structure Signals where
  cts : Nat
  dsr : Nat
  dcd : Nat
  ri : Nat
  deriving DecidableEq, Repr

/-- The method `SerialHandle::get_signals`: the mask the driver stored is split
with one bitwise-and per line. -/
def get_signals (d : Driver) : M (sp_return × Signals) := fun w =>
  let mask := d.signal_mask w.trace
  let c := sp d (DriverCall.sp_get_signals w.port_) w
  ((c.1, { cts := mask &&& SP_SIG_CTS, dsr := mask &&& SP_SIG_DSR,
           dcd := mask &&& SP_SIG_DCD, ri := mask &&& SP_SIG_RI }), c.2)

/-- The third block of `set_signals` (break) and the final `return SP_OK`. -/
def set_signals_brk (d : Driver) (brk : Int) : M sp_return := fun w =>
  if brk = 0 then
    RETURN_ON_ERROR (fun v => sp d (DriverCall.sp_end_break v.port_) v)
      (fun v => (SP_OK, v)) w
  else if brk = 1 then
    RETURN_ON_ERROR (fun v => sp d (DriverCall.sp_start_break v.port_) v)
      (fun v => (SP_OK, v)) w
  else (SP_OK, w)

/-- The second block of `set_signals` (RTS), followed by the break block. -/
def set_signals_rts (d : Driver) (rts brk : Int) : M sp_return := fun w =>
  if rts = 0 then
    RETURN_ON_ERROR (fun v => sp d (DriverCall.sp_set_rts v.port_ SP_RTS_OFF) v)
      (set_signals_brk d brk) w
  else if rts = 1 then
    RETURN_ON_ERROR (fun v => sp d (DriverCall.sp_set_rts v.port_ SP_RTS_ON) v)
      (set_signals_brk d brk) w
  else set_signals_brk d brk w

/-- The method `SerialHandle::set_signals`: the DTR block, followed by the RTS
and break blocks. -/
def set_signals (d : Driver) (dtr rts brk : Int) : M sp_return := fun w =>
  if dtr = 0 then
    RETURN_ON_ERROR (fun v => sp d (DriverCall.sp_set_dtr v.port_ SP_DTR_OFF) v)
      (set_signals_rts d rts brk) w
  else if dtr = 1 then
    RETURN_ON_ERROR (fun v => sp d (DriverCall.sp_set_dtr v.port_ SP_DTR_ON) v)
      (set_signals_rts d rts brk) w
  else set_signals_rts d rts brk w

/-- The method `SerialHandle::read_data`. -/
def read_data (d : Driver) (size : Nat) : M sp_return := fun w =>
  sp d (DriverCall.sp_nonblocking_read w.port_ size) w

/-- The method `SerialHandle::write_data`. -/
def write_data (d : Driver) (size : Nat) : M sp_return := fun w =>
  sp d (DriverCall.sp_nonblocking_write w.port_ size) w

/-- The method `SerialHandle::discard_rx_buffer`. -/
def discard_rx_buffer (d : Driver) : M sp_return := fun w =>
  sp d (DriverCall.sp_flush_input w.port_) w

/-- The method `SerialHandle::discard_tx_buffer`. -/
def discard_tx_buffer (d : Driver) : M sp_return := fun w =>
  sp d (DriverCall.sp_flush_output w.port_) w

/-- The method `SerialHandle::flush_tx_buffer`. -/
def flush_tx_buffer (d : Driver) : M sp_return := fun w =>
  sp d (DriverCall.sp_drain w.port_) w

/-! ## webserial.cc: host calls -/

/-- A host call that writes no result the model keeps (argument access such as
`napi_get_cb_info`, `napi_unwrap`, `napi_get_value_int32`): only its status
matters.  The values it extracts are parameters of the binding function. -/
def napi_arg (h : Host) : M (napi_status × Unit) := fun w =>
  let c := napi h w
  ((c.1, ()), c.2)

/-- A host call with an out-parameter: on `napi_ok` the new value is stored,
otherwise the variable keeps the value `old` it had. -/
def napi_out (h : Host) (old : napi_value) (new : M napi_value) :
    M (napi_status × napi_value) := fun w =>
  let c := napi h w
  if c.1 = napi_ok then
    let n := new c.2
    ((c.1, n.1), n.2)
  else ((c.1, old), c.2)

/-- Allocate a host object; its handle is its index in the heap. -/
def alloc (o : JsObject) : M napi_value := fun w =>
  (napi_value.object w.heap.length, { w with heap := w.heap ++ [o] })

/-- Apply `f` to the `n`-th element of a list. -/
def updateAt {α : Type} (f : α → α) : Nat → List α → List α
  | _, [] => []
  | 0, x :: xs => f x :: xs
  | n + 1, x :: xs => x :: updateAt f n xs

/-- Store `v` at index `i` of an array, as a host array does: the array grows
to length `i + 1` when it is shorter, the new cells in between being holes. -/
def setElem (xs : List (Option napi_value)) (i : Nat) (v : napi_value) :
    List (Option napi_value) :=
  (xs ++ List.replicate (i + 1 - xs.length) none).set i (some v)

/-- Store a named property: a property of that name is replaced. -/
def setProp (ps : List (String × napi_value)) (key : String) (v : napi_value) :
    List (String × napi_value) :=
  ps.filter (fun p => p.1 ≠ key) ++ [(key, v)]

/-- The host call `napi_get_undefined`. -/
def napi_get_undefined (h : Host) (old : napi_value) : M (napi_status × napi_value) :=
  napi_out h old (fun w => (napi_value.undefined, w))

/-- The host call `napi_get_boolean`. -/
def napi_get_boolean (h : Host) (b : Bool) (old : napi_value) :
    M (napi_status × napi_value) :=
  napi_out h old (fun w => (napi_value.boolean b, w))

/-- The host call `napi_create_int32`. -/
def napi_create_int32 (h : Host) (n : Int) (old : napi_value) :
    M (napi_status × napi_value) :=
  napi_out h old (fun w => (napi_value.int32 n, w))

/-- The host call `napi_create_string_utf8`. -/
def napi_create_string_utf8 (h : Host) (s : String) (old : napi_value) :
    M (napi_status × napi_value) :=
  napi_out h old (fun w => (napi_value.string s, w))

/-- The host call `napi_create_object`. -/
def napi_create_object (h : Host) (old : napi_value) : M (napi_status × napi_value) :=
  napi_out h old (alloc { byteLength := none, props := [], elems := [] })

/-- The host call `napi_create_array`. -/
def napi_create_array (h : Host) (old : napi_value) : M (napi_status × napi_value) :=
  napi_out h old (alloc { byteLength := none, props := [], elems := [] })

/-- The host call `napi_create_arraybuffer`. -/
def napi_create_arraybuffer (h : Host) (size : Nat) (old : napi_value) :
    M (napi_status × napi_value) :=
  napi_out h old (alloc { byteLength := some size, props := [], elems := [] })

/-- The host call `napi_set_named_property`. -/
def napi_set_named_property (h : Host) (object : napi_value) (key : String)
    (v : napi_value) : M (napi_status × Unit) := fun w =>
  let c := napi h w
  if c.1 = napi_ok then
    match object with
    | napi_value.object id =>
      ((c.1, ()), { c.2 with
        heap := updateAt (fun o => { o with props := setProp o.props key v }) id c.2.heap })
    | _ => ((c.1, ()), c.2)
  else ((c.1, ()), c.2)

/-- The host call `napi_set_element`. -/
def napi_set_element (h : Host) (object : napi_value) (i : Nat) (v : napi_value) :
    M (napi_status × Unit) := fun w =>
  let c := napi h w
  if c.1 = napi_ok then
    match object with
    | napi_value.object id =>
      ((c.1, ()), { c.2 with
        heap := updateAt (fun o => { o with elems := setElem o.elems i v }) id c.2.heap })
    | _ => ((c.1, ()), c.2)
  else ((c.1, ()), c.2)

/-- The C conversion of an integer to `int32_t`. -/
def to_int32_t (x : Int) : Int :=
  (x + 2147483648) % 4294967296 - 2147483648

/-! ## webserial.cc: the checking macros -/

/-- The macro `NAPI_CHECK(status, msg)`.  The argument `status` occurs once.  When
it is not `napi_ok` and no exception is pending, an error is thrown (with the
host's message, or `msg` when the host has none) and the function returns NULL;
when an exception is already pending the macro does nothing and the function
goes on. -/
def NAPI_CHECK {α : Type} (h : Host) (status : M (napi_status × α)) (msg : String)
    (k : α → M napi_value) : M napi_value := fun w =>
  let c := status w
  if c.1.1 ≠ napi_ok then
    if ¬ h.is_pending c.2.napi_calls then
      (napi_value.null,
        napi_throw_error ((h.error_message c.2.napi_calls).getD msg) c.2)
    else k c.1.2 c.2
  else k c.1.2 c.2

/-- The `switch` of `SP_CHECK`: the message for a result code; for `SP_ERR_FAIL` it
is fetched from the driver with `sp_last_error_message`. -/
def SP_CHECK_message (d : Driver) (result : sp_return) : M String := fun w =>
  if result = SP_ERR_ARG then ("Invalid argument", w)
  else if result = SP_ERR_FAIL then
    (d.last_error_message w.trace, (sp d DriverCall.sp_last_error_message w).2)
  else if result = SP_ERR_SUPP then ("Not supported", w)
  else if result = SP_ERR_MEM then ("Out of memory", w)
  else ("Unknown serial port error", w)

/-- The macro `SP_CHECK(result)`.  The argument occurs three times in the body:
in the test `(result) != SP_OK`, in `switch ((result))` and in the test
`(result) == SP_ERR_FAIL` that guards `sp_free_error_message`; it is run once
for each occurrence reached. -/
def SP_CHECK {α : Type} (d : Driver) (result : M (sp_return × α))
    (k : α → M napi_value) : M napi_value := fun w =>
  let c1 := result w
  if c1.1.1 ≠ SP_OK then
    let c2 := result c1.2
    let m := SP_CHECK_message d c2.1.1 c2.2
    let w3 := napi_throw_error m.1 m.2
    let c3 := result w3
    if c3.1.1 = SP_ERR_FAIL then
      (napi_value.null, (sp d DriverCall.sp_free_error_message c3.2).2)
    else (napi_value.null, c3.2)
  else k c1.1.2 c1.2

/-- An argument of `SP_CHECK` that is a call returning only a code. -/
def code_only (m : M sp_return) : M (sp_return × Unit) := fun w =>
  let c := m w
  ((c.1, ()), c.2)

/-- An argument of a checking macro that is a variable: running it reads the
variable and has no effect. -/
def read_var {α : Type} (x : α) : M (α × Unit) := fun w => ((x, ()), w)

/-! ## webserial.cc: the binding functions

The values a binding function extracts from its arguments (the handle, the
integers, the buffer length) are parameters of the embedding; the handle is the
`port_` field of the world.  When an argument access fails while an exception is
pending, `NAPI_CHECK` lets the function go on with a C++ variable that was never
written, which is undefined behaviour; the embedding goes on with the parameter.
No statement below is about such a path. -/

/-- The binding function `ClosePort`. -/
def ClosePort (h : Host) (d : Driver) : M napi_value :=
  NAPI_CHECK h (napi_arg h) "could not get arguments" fun _ =>
  NAPI_CHECK h (napi_arg h) "could not unwrap handle" fun _ =>
  SP_CHECK d (code_only (close_port d)) fun _ =>
  NAPI_CHECK h (napi_get_undefined h napi_value.null) "could not get undefined" fun ret w =>
  (ret, w)

/-- The binding function `OpenPort`. -/
def OpenPort (h : Host) (d : Driver)
    (baud_rate data_bits stop_bits parity flow_control : Int) : M napi_value :=
  NAPI_CHECK h (napi_arg h) "could not get arguments" fun _ =>
  NAPI_CHECK h (napi_arg h) "could not unwrap handle" fun _ =>
  NAPI_CHECK h (napi_arg h) "could not get baudRate" fun _ =>
  NAPI_CHECK h (napi_arg h) "could not get dataBits" fun _ =>
  NAPI_CHECK h (napi_arg h) "could not get stopBits" fun _ =>
  NAPI_CHECK h (napi_arg h) "could not get parity" fun _ =>
  NAPI_CHECK h (napi_arg h) "could not get flowControl" fun _ =>
  SP_CHECK d (code_only (open_port d baud_rate data_bits stop_bits parity flow_control))
    fun _ =>
  NAPI_CHECK h (napi_get_undefined h napi_value.null) "could not get undefined" fun ret w =>
  (ret, w)

/-- The binding function `GetSignals`. -/
def GetSignals (h : Host) (d : Driver) : M napi_value :=
  NAPI_CHECK h (napi_arg h) "could not get arguments" fun _ =>
  NAPI_CHECK h (napi_arg h) "could not unwrap handle" fun _ =>
  SP_CHECK d (get_signals d) fun s =>
  NAPI_CHECK h (napi_create_object h napi_value.null) "could not create object" fun ret =>
  NAPI_CHECK h (napi_get_boolean h (s.cts != 0) napi_value.null)
    "could not create cts" fun field1 =>
  NAPI_CHECK h (napi_set_named_property h ret "clearToSend" field1)
    "could not set 'clearToSend' property" fun _ =>
  NAPI_CHECK h (napi_get_boolean h (s.dcd != 0) field1)
    "could not create dcd" fun field2 =>
  NAPI_CHECK h (napi_set_named_property h ret "dataCarrierDetect" field2)
    "could not set 'dataCarrierDetect' property" fun _ =>
  NAPI_CHECK h (napi_get_boolean h (s.dsr != 0) field2)
    "could not create dsr" fun field3 =>
  NAPI_CHECK h (napi_set_named_property h ret "dataSetReady" field3)
    "could not set 'dataSetReady' property" fun _ =>
  NAPI_CHECK h (napi_get_boolean h (s.ri != 0) field3)
    "could not create ri" fun field4 =>
  NAPI_CHECK h (napi_set_named_property h ret "ringIndicator" field4)
    "could not set 'ringIndicator' property" fun _ w =>
  (ret, w)

/-- The binding function `ReadData`; `bytes_to_read` is the `uint32_t` taken from
the second argument.  `bytes_read` is an `ssize_t` and is converted to `int32_t`
by the call of `napi_create_int32`. -/
def ReadData (h : Host) (d : Driver) (bytes_to_read : Nat) : M napi_value :=
  NAPI_CHECK h (napi_arg h) "could not get arguments" fun _ =>
  NAPI_CHECK h (napi_arg h) "could not unwrap handle" fun _ =>
  NAPI_CHECK h (napi_arg h) "could not get desired size" fun _ =>
  NAPI_CHECK h (napi_create_arraybuffer h bytes_to_read napi_value.null)
    "could not create array buffer" fun ret w =>
  let c := read_data d bytes_to_read w
  let bytes_read := c.1
  let rest : M napi_value :=
    NAPI_CHECK h (napi_create_int32 h (to_int32_t bytes_read) napi_value.null)
      "could not create bytesRead" fun field =>
    NAPI_CHECK h (napi_set_named_property h ret "bytesRead" field)
      "could not set 'bytesRead' property" fun _ v =>
    (ret, v)
  if bytes_read < 0 then SP_CHECK d (read_var bytes_read) (fun _ => rest) c.2
  else rest c.2

/-- The binding function `WriteData`; `bytes_to_write` is the length of the array
buffer passed.  The variable `ret` is initialised to `nullptr` and never
assigned. -/
def WriteData (h : Host) (d : Driver) (bytes_to_write : Nat) : M napi_value :=
  NAPI_CHECK h (napi_arg h) "could not get arguments" fun _ =>
  NAPI_CHECK h (napi_arg h) "could not unwrap handle" fun _ =>
  NAPI_CHECK h (napi_arg h) "could not get buffer" fun _ w =>
  let ret := napi_value.null
  let c := write_data d bytes_to_write w
  let bytes_written := c.1
  let rest : M napi_value := fun v => (ret, v)
  if bytes_written < 0 then SP_CHECK d (read_var bytes_written) (fun _ => rest) c.2
  else rest c.2

/-- The binding function `DiscardRxBuffer`. -/
def DiscardRxBuffer (h : Host) (d : Driver) : M napi_value :=
  NAPI_CHECK h (napi_arg h) "could not get arguments" fun _ =>
  NAPI_CHECK h (napi_arg h) "could not unwrap handle" fun _ =>
  SP_CHECK d (code_only (discard_rx_buffer d)) fun _ =>
  NAPI_CHECK h (napi_get_undefined h napi_value.null) "could not get undefined" fun ret w =>
  (ret, w)

/-- The binding function `FlushTxBuffer`. -/
def FlushTxBuffer (h : Host) (d : Driver) : M napi_value :=
  NAPI_CHECK h (napi_arg h) "could not get arguments" fun _ =>
  NAPI_CHECK h (napi_arg h) "could not unwrap handle" fun _ =>
  SP_CHECK d (code_only (flush_tx_buffer d)) fun _ =>
  NAPI_CHECK h (napi_get_undefined h napi_value.null) "could not get undefined" fun ret w =>
  (ret, w)

/-- The binding function `DiscardTxBuffer`. -/
def DiscardTxBuffer (h : Host) (d : Driver) : M napi_value :=
  NAPI_CHECK h (napi_arg h) "could not get arguments" fun _ =>
  NAPI_CHECK h (napi_arg h) "could not unwrap handle" fun _ =>
  SP_CHECK d (code_only (discard_tx_buffer d)) fun _ =>
  NAPI_CHECK h (napi_get_undefined h napi_value.null) "could not get undefined" fun ret w =>
  (ret, w)

/-- The pattern `if (status != napi_ok) { sp_free_port_list(port_list);
NAPI_CHECK(status, msg); }` of `ListAllPorts`, followed by the rest `k` of the
function. -/
def free_list_and_check (h : Host) (d : Driver) (status : napi_status) (msg : String)
    (k : M napi_value) : M napi_value := fun w =>
  if status ≠ napi_ok then
    NAPI_CHECK h (read_var status) msg (fun _ => k)
      (sp d DriverCall.sp_free_port_list w).2
  else k w

/-- The block `if (r == SP_OK) { ... }` of the loop of `ListAllPorts`, which
stores `vendorId` and `productId`, followed by the rest `k` of the function. -/
def ListAllPorts_usb_ids (h : Host) (d : Driver) (object : napi_value) (port : PortInfo)
    (k : M napi_value) : M napi_value := fun w =>
  if port.vid_pid_return = SP_OK then
    let c1 := napi_create_int32 h port.usb_vid napi_value.null w
    free_list_and_check h d c1.1.1 "could not create vendor value" (fun w1 =>
      let c2 := napi_create_int32 h port.usb_pid napi_value.null w1
      free_list_and_check h d c2.1.1 "could not create product value" (fun w2 =>
        let c3 := napi_set_named_property h object "vendorId" c1.1.2 w2
        free_list_and_check h d c3.1.1 "could not set 'vendorId' property" (fun w3 =>
          let c4 := napi_set_named_property h object "productId" c2.1.2 w3
          free_list_and_check h d c4.1.1 "could not set 'productId' property" k c4.2)
          c3.2) c2.2) c1.2
  else k w

/-- The loop of `ListAllPorts` from index `i` on, over the ports not yet visited,
followed by the final `sp_free_port_list(port_list); return ret;`.  The accessors
`sp_get_port_name` and `sp_get_port_usb_vid_pid` are recorded in the trace and
answer with the fields of the port. -/
def ListAllPorts_loop (h : Host) (d : Driver) (ret : napi_value) :
    List PortInfo → Nat → M napi_value
  | [], _ => fun w => (ret, (sp d DriverCall.sp_free_port_list w).2)
  | port :: rest, i => fun w =>
    let w0 := (sp d (DriverCall.sp_get_port_name i) w).2
    match port.name with
    | none => ListAllPorts_loop h d ret rest (i + 1) w0
    | some port_name =>
      let c1 := napi_create_object h napi_value.null w0
      let object := c1.1.2
      free_list_and_check h d c1.1.1 "could not create object" (fun w1 =>
        let c2 := napi_create_string_utf8 h port_name napi_value.null w1
        free_list_and_check h d c2.1.1 "could not create string" (fun w2 =>
          let c3 := napi_set_named_property h object "name" c2.1.2 w2
          free_list_and_check h d c3.1.1 "could not set 'name' property" (fun w3 =>
            let c4 := napi_set_element h ret i object w3
            free_list_and_check h d c4.1.1 "could not set array element" (fun w4 =>
              let r := port.vid_pid_return
              let w5 := (sp d (DriverCall.sp_get_port_usb_vid_pid i) w4).2
              let after : M napi_value :=
                ListAllPorts_usb_ids h d object port
                  (ListAllPorts_loop h d ret rest (i + 1))
              if r ≠ SP_OK ∧ r ≠ SP_ERR_ARG then
                SP_CHECK d (read_var r) (fun _ => after)
                  (sp d DriverCall.sp_free_port_list w5).2
              else after w5) c4.2) c3.2) c2.2) c1.2

/-- The list `sp_list_ports` stores, with its return code. -/
def sp_list_ports (d : Driver) : M (sp_return × List PortInfo) := fun w =>
  let port_list := d.port_list w.trace
  let c := sp d DriverCall.sp_list_ports w
  ((c.1, port_list), c.2)

/-- The binding function `ListAllPorts`. -/
def ListAllPorts (h : Host) (d : Driver) : M napi_value :=
  NAPI_CHECK h (napi_create_array h napi_value.null) "could not create array" fun ret =>
  SP_CHECK d (sp_list_ports d) fun port_list =>
  ListAllPorts_loop h d ret port_list 0

/-! ## Observations and concrete environments -/

/-- Every N-API call of the host succeeds. -/
def Host.ok (h : Host) : Prop := ∀ k, h.status k = napi_ok

/-- A host in which every N-API call succeeds and no exception is pending. -/
def okHost : Host :=
  { status := fun _ => napi_ok, is_pending := fun _ => false, error_message := fun _ => none }

/-- The driver rejects a null port passed to `sp_close` with `SP_ERR_ARG`, as
libserialport does. -/
def rejects_null_port (d : Driver) : Prop :=
  ∀ t, d.ret t (DriverCall.sp_close none) = SP_ERR_ARG

/-- A driver in which every call succeeds, except that `sp_close` rejects a null
port with `SP_ERR_ARG`. -/
def nullRejectingDriver : Driver :=
  { ret := fun _ c => if c = DriverCall.sp_close none then SP_ERR_ARG else SP_OK,
    signal_mask := fun _ => 0,
    port_list := fun _ => [],
    last_error_message := fun _ => "" }

/-- A handle that holds port 7, before any call. -/
def openWorld : World :=
  { port_ := some 7, trace := [], napi_calls := 0, heap := [] }

/-- The errors thrown into the host, in order. -/
def thrown : List Event → List String
  | [] => []
  | Event.napi_throw_error m :: t => m :: thrown t
  | Event.driver _ :: t => thrown t

/-- The driver calls made, in order. -/
def driver_calls : List Event → List DriverCall
  | [] => []
  | Event.driver c :: t => c :: driver_calls t
  | Event.napi_throw_error _ :: t => driver_calls t

/-- The number of driver calls of a trace that satisfy `p`. -/
def count_calls (p : DriverCall → Bool) (t : List Event) : Nat :=
  (driver_calls t).countP p

/-- A driver whose answers do not depend on the history. -/
def simpleDriver (ret : DriverCall → sp_return) (mask : Nat) (ports : List PortInfo)
    (msg : String) : Driver :=
  { ret := fun _ c => ret c,
    signal_mask := fun _ => mask,
    port_list := fun _ => ports,
    last_error_message := fun _ => msg }

/-- The named properties of the host object a handle refers to. -/
def props_of (heap : List JsObject) : napi_value → List (String × napi_value)
  | napi_value.object id => (heap[id]?.map fun o => o.props).getD []
  | _ => []

/-- The elements of the host array a handle refers to. -/
def elems_of (heap : List JsObject) : napi_value → List (Option napi_value)
  | napi_value.object id => (heap[id]?.map fun o => o.elems).getD []
  | _ => []

/-- The value of a named property of a host object, if it has one. -/
def get_prop (heap : List JsObject) (v : napi_value) (key : String) : Option napi_value :=
  (props_of heap v).lookup key

/-- A driver that accepts 5 bytes of every write. -/
def partialWriteDriver : Driver :=
  simpleDriver
    (fun c => match c with
      | DriverCall.sp_nonblocking_write _ _ => 5
      | _ => SP_OK)
    0 [] ""

/-- A driver that lists two ports: the first has no name, the second is
`ttyS1` and is not a USB device. -/
def unnamedFirstDriver : Driver :=
  simpleDriver (fun _ => SP_OK) 0
    [{ name := none, vid_pid_return := SP_ERR_ARG, usb_vid := 0, usb_pid := 0 },
     { name := some "ttyS1", vid_pid_return := SP_ERR_ARG, usb_vid := 0, usb_pid := 0 }]
    ""

/-- The number of ports of a list that have a name. -/
def named_ports (ports : List PortInfo) : Nat :=
  ports.countP fun p => p.name.isSome

/-- Spec side of the open sequence: issue the given driver calls in order after
the history `t` and stop at the first whose return code is not `SP_OK`.  The
result is the code of that first failing step (`SP_OK` when none fails) and the
history at that point. -/
def first_failing (d : Driver) : List DriverCall → List Event → sp_return × List Event
  | [], t => (SP_OK, t)
  | c :: cs, t =>
    if d.ret t c ≠ SP_OK then (d.ret t c, t ++ [Event.driver c])
    else first_failing d cs (t ++ [Event.driver c])

/-- The five field-set steps of `open_port`, in the order of the source. -/
def field_set_steps (baud_rate data_bits stop_bits parity flow_control : Int) :
    List DriverCall :=
  [DriverCall.sp_set_config_baudrate baud_rate,
   DriverCall.sp_set_config_bits data_bits,
   DriverCall.sp_set_config_parity parity,
   DriverCall.sp_set_config_stopbits stop_bits,
   DriverCall.sp_set_config_flowcontrol flow_control]

/-- Recognises a call of `sp_close`. -/
def is_sp_close : DriverCall → Bool
  | DriverCall.sp_close _ => true
  | _ => false

/-- Recognises a call of the commit step `sp_set_config`. -/
def is_sp_set_config : DriverCall → Bool
  | DriverCall.sp_set_config _ => true
  | _ => false

/-- Recognises a call of `sp_free_config`. -/
def is_sp_free_config : DriverCall → Bool
  | DriverCall.sp_free_config => true
  | _ => false

/-- A driver that rejects parity 9 with `SP_ERR_ARG` and accepts every other call. -/
def parityRejectingDriver : Driver :=
  simpleDriver
    (fun c => match c with
      | DriverCall.sp_set_config_parity 9 => SP_ERR_ARG
      | _ => SP_OK)
    0 [] ""

/-- Run driver calls in order against the world, stopping at the first whose
return code is not `SP_OK`; the world-level counterpart of `first_failing`. -/
def run_until_failure (d : Driver) : List DriverCall → M sp_return
  | [], w => (SP_OK, w)
  | c :: cs, w =>
    if (sp d c w).1 ≠ SP_OK then sp d c w else run_until_failure d cs (sp d c w).2

/-- A driver whose `sp_set_dtr` fails with `SP_ERR_SUPP` every time it is called;
every other call succeeds. -/
def dtrFailingDriver : Driver :=
  simpleDriver
    (fun c => match c with
      | DriverCall.sp_set_dtr _ _ => SP_ERR_SUPP
      | _ => SP_OK)
    0 [] ""

/-- A driver whose `sp_set_dtr` fails with `SP_ERR_FAIL` when it is the first call
made and succeeds afterwards; every other call succeeds. -/
def dtrFailsOnceDriver : Driver :=
  { ret := fun t c => match c with
      | DriverCall.sp_set_dtr _ _ => if t.isEmpty then SP_ERR_FAIL else SP_OK
      | _ => SP_OK,
    signal_mask := fun _ => 0,
    port_list := fun _ => [],
    last_error_message := fun _ => "" }

/-- The text `SP_CHECK` throws for a result code, `last` being the driver's last
error message. -/
def error_text (result : sp_return) (last : String) : String :=
  if result = SP_ERR_ARG then "Invalid argument"
  else if result = SP_ERR_FAIL then last
  else if result = SP_ERR_SUPP then "Not supported"
  else if result = SP_ERR_MEM then "Out of memory"
  else "Unknown serial port error"

/-- Spec side of `set_signals`: the calls a request asks for, in the order DTR, RTS,
break; a field that is 0 or 1 asks for one call, any other value for none. -/
def requested_calls (port : sp_port) (dtr rts brk : Int) : List DriverCall :=
  (if dtr = 0 then [DriverCall.sp_set_dtr port SP_DTR_OFF]
   else if dtr = 1 then [DriverCall.sp_set_dtr port SP_DTR_ON] else []) ++
  (if rts = 0 then [DriverCall.sp_set_rts port SP_RTS_OFF]
   else if rts = 1 then [DriverCall.sp_set_rts port SP_RTS_ON] else []) ++
  (if brk = 0 then [DriverCall.sp_end_break port]
   else if brk = 1 then [DriverCall.sp_start_break port] else [])

/-- The record `getSignals` hands to the caller. -/
structure SignalState where
  clearToSend : Bool
  dataSetReady : Bool
  dataCarrierDetect : Bool
  ringIndicator : Bool
  deriving DecidableEq, Repr

/-- Read the four boolean properties of a host object as a `SignalState`; `none`
when one of them is missing or is not a boolean. -/
def read_SignalState (heap : List JsObject) (v : napi_value) : Option SignalState :=
  match get_prop heap v "clearToSend", get_prop heap v "dataSetReady",
      get_prop heap v "dataCarrierDetect", get_prop heap v "ringIndicator" with
  | some (napi_value.boolean cts), some (napi_value.boolean dsr),
      some (napi_value.boolean dcd), some (napi_value.boolean ri) =>
    some { clearToSend := cts, dataSetReady := dsr, dataCarrierDetect := dcd,
           ringIndicator := ri }
  | _, _, _, _ => none

/-- The driver `d` with the mask of `sp_get_signals` replaced by `mask`. -/
def withMask (d : Driver) (mask : Nat) : Driver :=
  { d with signal_mask := fun _ => mask }

/-- A driver in which every call succeeds and the signal mask has the bits CTS and
DCD set. -/
def ctsDcdDriver : Driver :=
  simpleDriver (fun _ => SP_OK) (SP_SIG_CTS ||| SP_SIG_DCD) [] ""

/-- A driver in which every call succeeds. -/
def allOkDriver : Driver :=
  simpleDriver (fun _ => SP_OK) 0 [] ""

/-- A driver whose `sp_nonblocking_read` fails with `SP_ERR_FAIL`, its last error
message being `Input/output error`; every other call succeeds. -/
def readFailingDriver : Driver :=
  simpleDriver
    (fun c => match c with
      | DriverCall.sp_nonblocking_read _ _ => SP_ERR_FAIL
      | _ => SP_OK)
    0 [] "Input/output error"

/-- Spec side of the enumeration: the properties of the descriptor of a named port.
The ids are present exactly when the USB-ID lookup returned `SP_OK`. -/
def descriptor (p : PortInfo) (name : String) : List (String × napi_value) :=
  ("name", napi_value.string name) ::
    (if p.vid_pid_return = SP_OK then
      [("vendorId", napi_value.int32 p.usb_vid), ("productId", napi_value.int32 p.usb_pid)]
     else [])

/-- The value at index `i` of an array: `none` when the index is out of range or
a hole. -/
def cell (xs : List (Option napi_value)) (i : Nat) : Option napi_value :=
  xs[i]?.getD none

/-- The entry at index `i` of the host array `v`: `none` when the index is out of
range or a hole, otherwise the properties of the object stored there. -/
def entry_at (heap : List JsObject) (v : napi_value) (i : Nat) :
    Option (List (String × napi_value)) :=
  (cell (elems_of heap v) i).map (props_of heap)

/-- Recognises a call of `sp_free_port_list`. -/
def is_sp_free_port_list : DriverCall → Bool
  | DriverCall.sp_free_port_list => true
  | _ => false

/-- The USB-ID lookup of a named port ended in `SP_OK` or `SP_ERR_ARG`. -/
def lookup_fine (p : PortInfo) : Prop :=
  p.name ≠ none → p.vid_pid_return = SP_OK ∨ p.vid_pid_return = SP_ERR_ARG

/-- A driver that lists a USB adapter `ttyUSB0` with ids 1027 and 24577 and a
port `ttyS0` that is not a USB device. -/
def usbAndPlainDriver : Driver :=
  simpleDriver (fun _ => SP_OK) 0
    [{ name := some "ttyUSB0", vid_pid_return := SP_OK, usb_vid := 1027, usb_pid := 24577 },
     { name := some "ttyS0", vid_pid_return := SP_ERR_ARG, usb_vid := 0, usb_pid := 0 }]
    ""

/-- A driver that lists the port `ttyS0` followed by a port `ttyUSB1` whose USB-ID
lookup fails with `SP_ERR_SUPP`. -/
def lookupFailingDriver : Driver :=
  simpleDriver (fun _ => SP_OK) 0
    [{ name := some "ttyS0", vid_pid_return := SP_ERR_ARG, usb_vid := 0, usb_pid := 0 },
     { name := some "ttyUSB1", vid_pid_return := SP_ERR_SUPP, usb_vid := 0, usb_pid := 0 }]
    ""

/-- A driver whose `sp_close` fails with `SP_ERR_FAIL` on a port and rejects a null
port with `SP_ERR_ARG`; its last error message is `Input/output error` and every
other call succeeds. -/
def closeFailingDriver : Driver :=
  simpleDriver
    (fun c => match c with
      | DriverCall.sp_close (some _) => SP_ERR_FAIL
      | DriverCall.sp_close none => SP_ERR_ARG
      | _ => SP_OK)
    0 [] "Input/output error"

/-- The enumerator `napi_pending_exception` of `napi_status` (node_api.h). -/
def napi_pending_exception : napi_status := 10

/-- A host in which the fourth N-API call raises an exception in the host: that
call and every later one answer `napi_pending_exception`, and from then on an
exception is pending.  In `ListAllPorts` the fourth call is the
`napi_set_named_property` that stores `name`. -/
def setterThrowsHost : Host :=
  { status := fun k => if 3 ≤ k then napi_pending_exception else napi_ok,
    is_pending := fun k => decide (4 ≤ k),
    error_message := fun _ => none }

/-- A driver that lists the single port `ttyS0`, which is not a USB device. -/
def onePortDriver : Driver :=
  simpleDriver (fun _ => SP_OK) 0
    [{ name := some "ttyS0", vid_pid_return := SP_ERR_ARG, usb_vid := 0, usb_pid := 0 }]
    ""

/-- C1, counterexample: with a driver that rejects a null port with `SP_ERR_ARG`,
the second `close_port` on a handle returns `SP_ERR_ARG`, which is not `SP_OK`, and
`ClosePort` on the closed handle returns NULL and throws `Invalid argument`. -/
theorem close_port_twice_fails :
    rejects_null_port nullRejectingDriver ∧
    (close_port nullRejectingDriver (close_port nullRejectingDriver openWorld).2).1
      = SP_ERR_ARG ∧
    SP_ERR_ARG ≠ SP_OK ∧
    (ClosePort okHost nullRejectingDriver
      (close_port nullRejectingDriver openWorld).2).1 = napi_value.null ∧
    thrown (ClosePort okHost nullRejectingDriver
      (close_port nullRejectingDriver openWorld).2).2.trace = ["Invalid argument"] := by
  refine ⟨fun _ => rfl, ?_, ?_, ?_, ?_⟩ <;> decide

/-- C1, amended: for every handle, after a first `close_port` the handle holds no
port; with a driver that rejects a null port with `SP_ERR_ARG`, a second
`close_port` returns `SP_ERR_ARG`, its only driver call is `sp_close` on the null
port (the port closed before is not touched again) and the handle still holds no
port; `ClosePort` on the closed handle returns NULL and throws the one error
`Invalid argument`, all of its driver calls being `sp_close` on the null port. -/
theorem close_port_second_call (d : Driver) (h : Host) (w : World)
    (hd : rejects_null_port d) (hh : h.ok) :
    (close_port d w).2.port_ = none ∧
    close_port d (close_port d w).2 =
      (SP_ERR_ARG, { (close_port d w).2 with
        trace := (close_port d w).2.trace ++ [Event.driver (DriverCall.sp_close none)] }) ∧
    ClosePort h d (close_port d w).2 =
      (napi_value.null, { (close_port d w).2 with
        napi_calls := (close_port d w).2.napi_calls + 2,
        trace := (close_port d w).2.trace ++
          [Event.driver (DriverCall.sp_close none),
           Event.driver (DriverCall.sp_close none),
           Event.napi_throw_error "Invalid argument",
           Event.driver (DriverCall.sp_close none)] }) := by
  have e1 : SP_ERR_ARG ≠ SP_OK := by decide
  have e2 : SP_ERR_ARG ≠ SP_ERR_FAIL := by decide
  refine ⟨rfl, ?_, ?_⟩
  · simp [close_port, sp, hd _]
  · simp [ClosePort, NAPI_CHECK, SP_CHECK, SP_CHECK_message, code_only, napi_arg, napi,
      close_port, sp, hd _, hh _, e1, e2, napi_throw_error]

/-- C1, witness of the amended claim: the handle holding port 7, closed twice
against the null-rejecting driver. -/
theorem close_port_second_call_witness :
    rejects_null_port nullRejectingDriver ∧ okHost.ok ∧
    (close_port nullRejectingDriver (close_port nullRejectingDriver openWorld).2).1
      = SP_ERR_ARG ∧
    (ClosePort okHost nullRejectingDriver
      (close_port nullRejectingDriver openWorld).2).1 = napi_value.null :=
  ⟨fun _ => rfl, fun _ => rfl,
   congrArg Prod.fst
     (close_port_second_call nullRejectingDriver okHost openWorld
       (fun _ => rfl) (fun _ => rfl)).2.1,
   congrArg Prod.fst
     (close_port_second_call nullRejectingDriver okHost openWorld
       (fun _ => rfl) (fun _ => rfl)).2.2⟩

/-! ## C2: the value returned by a write -/

/-- When the rest of the function returns NULL, so does the function after a
`NAPI_CHECK`. -/
theorem NAPI_CHECK_null {α : Type} (h : Host) (status : M (napi_status × α)) (msg : String)
    (k : α → M napi_value) (hk : ∀ a v, (k a v).1 = napi_value.null) (w : World) :
    (NAPI_CHECK h status msg k w).1 = napi_value.null := by
  unfold NAPI_CHECK
  dsimp only
  split_ifs <;> first | rfl | exact hk _ _

/-- When the rest of the function returns NULL, so does the function after an
`SP_CHECK`. -/
theorem SP_CHECK_null {α : Type} (d : Driver) (result : M (sp_return × α))
    (k : α → M napi_value) (hk : ∀ a v, (k a v).1 = napi_value.null) (w : World) :
    (SP_CHECK d result k w).1 = napi_value.null := by
  unfold SP_CHECK
  dsimp only
  split_ifs <;> first | rfl | exact hk _ _

/-- Every path of `WriteData` returns NULL: the variable `ret` is never assigned. -/
theorem WriteData_returns_null (h : Host) (d : Driver) (n : Nat) (w : World) :
    (WriteData h d n w).1 = napi_value.null := by
  unfold WriteData
  refine NAPI_CHECK_null _ _ _ _ (fun _ _ => ?_) _
  refine NAPI_CHECK_null _ _ _ _ (fun _ _ => ?_) _
  refine NAPI_CHECK_null _ _ _ _ (fun _ v => ?_) _
  dsimp only
  split_ifs
  · exact SP_CHECK_null _ _ _ (fun _ _ => rfl) _
  · rfl

/-- C2, at the failing input: a write of a 13-byte buffer of which the driver
accepts 5 bytes.  `WriteData` makes the one driver call, throws nothing and returns
NULL, so the count 5 does not reach the caller. -/
theorem WriteData_drops_bytes_written :
    (write_data partialWriteDriver 13 openWorld).1 = 5 ∧
    WriteData okHost partialWriteDriver 13 openWorld =
      (napi_value.null,
       { port_ := some 7,
         trace := [Event.driver (DriverCall.sp_nonblocking_write (some 7) 13)],
         napi_calls := 3,
         heap := [] }) := by
  constructor <;> decide

/-! ## C3: unnamed ports in the enumeration -/

/-- C3, at the failing input: the driver lists an unnamed port followed by the port
`ttyS1`.  `ListAllPorts` throws nothing and returns an array in which the
descriptor of `ttyS1` sits at index 1 behind a hole at index 0: the array has
length 2, while one port has a name. -/
theorem ListAllPorts_leaves_hole :
    named_ports (unnamedFirstDriver.port_list []) = 1 ∧
    (ListAllPorts okHost unnamedFirstDriver openWorld).1 = napi_value.object 0 ∧
    thrown (ListAllPorts okHost unnamedFirstDriver openWorld).2.trace = [] ∧
    elems_of (ListAllPorts okHost unnamedFirstDriver openWorld).2.heap
      (napi_value.object 0) = [none, some (napi_value.object 1)] ∧
    props_of (ListAllPorts okHost unnamedFirstDriver openWorld).2.heap
      (napi_value.object 1) = [("name", napi_value.string "ttyS1")] := by
  refine ⟨?_, ?_, ?_, ?_, ?_⟩ <;> decide

/-! ## Traces -/

theorem driver_calls_append (a b : List Event) :
    driver_calls (a ++ b) = driver_calls a ++ driver_calls b := by
  induction a with
  | nil => rfl
  | cons e t ih => cases e <;> simp [driver_calls, ih]

theorem thrown_append (a b : List Event) : thrown (a ++ b) = thrown a ++ thrown b := by
  induction a with
  | nil => rfl
  | cons e t ih => cases e <;> simp [thrown, ih]

theorem count_calls_append (p : DriverCall → Bool) (a b : List Event) :
    count_calls p (a ++ b) = count_calls p a + count_calls p b := by
  simp [count_calls, driver_calls_append]

@[simp]
theorem sp_fst (d : Driver) (c : DriverCall) (w : World) :
    (sp d c w).1 = d.ret w.trace c := rfl
@[simp]
theorem sp_trace (d : Driver) (c : DriverCall) (w : World) :
    (sp d c w).2.trace = w.trace ++ [Event.driver c] := rfl
@[simp]
theorem sp_port_ (d : Driver) (c : DriverCall) (w : World) :
    (sp d c w).2.port_ = w.port_ := rfl
@[simp]
theorem sp_napi_calls (d : Driver) (c : DriverCall) (w : World) :
    (sp d c w).2.napi_calls = w.napi_calls := rfl
@[simp]
theorem sp_heap (d : Driver) (c : DriverCall) (w : World) :
    (sp d c w).2.heap = w.heap := rfl

/-! ## C4 and C5: the open sequence -/

/-- The body of `open_port` in closed form: the steps after `sp_new_config` are run
until the first failure, then control reaches the label `free_config:`. -/
theorem open_port_eq (d : Driver)
    (baud_rate data_bits stop_bits parity flow_control : Int) (w : World) :
    open_port d baud_rate data_bits stop_bits parity flow_control w =
      if (sp d (DriverCall.sp_open w.port_) w).1 ≠ SP_OK then sp d (DriverCall.sp_open w.port_) w
      else if (sp d DriverCall.sp_new_config (sp d (DriverCall.sp_open w.port_) w).2).1 ≠ SP_OK then
        open_port_close_port d (sp d DriverCall.sp_new_config (sp d (DriverCall.sp_open w.port_) w).2).1
          (sp d DriverCall.sp_new_config (sp d (DriverCall.sp_open w.port_) w).2).2
      else
        open_port_free_config d
          (run_until_failure d
            (field_set_steps baud_rate data_bits stop_bits parity flow_control ++
              [DriverCall.sp_set_config w.port_])
            (sp d DriverCall.sp_new_config (sp d (DriverCall.sp_open w.port_) w).2).2).1
          (run_until_failure d
            (field_set_steps baud_rate data_bits stop_bits parity flow_control ++
              [DriverCall.sp_set_config w.port_])
            (sp d DriverCall.sp_new_config (sp d (DriverCall.sp_open w.port_) w).2).2).2 := by
  simp only [open_port, run_until_failure, field_set_steps, List.cons_append, List.nil_append, sp_port_]
  split_ifs <;> first | rfl | (rename_i h; rw [not_not.mp h])

theorem run_until_failure_fst (d : Driver) (cs : List DriverCall) (w : World) :
    (run_until_failure d cs w).1 = (first_failing d cs w.trace).1 := by
  induction cs generalizing w with
  | nil => rfl
  | cons c cs ih =>
    simp only [run_until_failure, first_failing, sp_fst]
    split_ifs
    · rfl
    · rw [ih]; rfl

theorem run_until_failure_trace (d : Driver) (cs : List DriverCall) (w : World) :
    (run_until_failure d cs w).2.trace = (first_failing d cs w.trace).2 := by
  induction cs generalizing w with
  | nil => rfl
  | cons c cs ih =>
    simp only [run_until_failure, first_failing, sp_fst]
    split_ifs
    · rfl
    · rw [ih]; rfl

theorem run_until_failure_port (d : Driver) (cs : List DriverCall) (w : World) :
    (run_until_failure d cs w).2.port_ = w.port_ := by
  induction cs generalizing w with
  | nil => rfl
  | cons c cs ih =>
    simp only [run_until_failure]
    split_ifs
    · rfl
    · rw [ih]; rfl

theorem first_failing_append_of_fail (d : Driver) (a b : List DriverCall) (t : List Event)
    (hf : (first_failing d a t).1 ≠ SP_OK) :
    first_failing d (a ++ b) t = first_failing d a t := by
  induction a generalizing t with
  | nil => exact absurd rfl hf
  | cons c cs ih =>
    simp only [first_failing, List.cons_append] at hf ⊢
    split_ifs with hc
    · rfl
    · rw [if_neg hc] at hf
      exact ih _ hf

theorem count_calls_first_failing (d : Driver) (p : DriverCall → Bool) (cs : List DriverCall)
    (t : List Event) (hp : ∀ c ∈ cs, p c = false) :
    count_calls p (first_failing d cs t).2 = count_calls p t := by
  induction cs generalizing t with
  | nil => rfl
  | cons c cs ih =>
    have hc : p c = false := hp c (List.mem_cons_self _ _)
    have hcs : ∀ x ∈ cs, p x = false := fun x hx => hp x (List.mem_cons_of_mem _ hx)
    have h1 : count_calls p (t ++ [Event.driver c]) = count_calls p t := by
      simp [count_calls, driver_calls_append, driver_calls, hc]
    simp only [first_failing]
    split_ifs
    · exact h1
    · rw [ih _ hcs, h1]

theorem first_failing_cons (d : Driver) (c : DriverCall) (cs : List DriverCall)
    (t : List Event) :
    first_failing d (c :: cs) t =
      if d.ret t c ≠ SP_OK then (d.ret t c, t ++ [Event.driver c])
      else first_failing d cs (t ++ [Event.driver c]) := rfl

theorem open_port_close_port_fst (d : Driver) (r : sp_return) (w : World) :
    (open_port_close_port d r w).1 = r := by
  unfold open_port_close_port; split_ifs <;> rfl

theorem open_port_close_port_port (d : Driver) (r : sp_return) (w : World) :
    (open_port_close_port d r w).2.port_ = w.port_ := by
  unfold open_port_close_port; split_ifs <;> rfl

theorem open_port_close_port_trace (d : Driver) (r : sp_return) (w : World) :
    (open_port_close_port d r w).2.trace =
      w.trace ++ (if r ≠ SP_OK then [Event.driver (DriverCall.sp_close w.port_)] else []) := by
  unfold open_port_close_port; split_ifs <;> simp

theorem open_port_free_config_fst (d : Driver) (r : sp_return) (w : World) :
    (open_port_free_config d r w).1 = r :=
  open_port_close_port_fst _ _ _

theorem open_port_free_config_port (d : Driver) (r : sp_return) (w : World) :
    (open_port_free_config d r w).2.port_ = w.port_ :=
  open_port_close_port_port _ _ _

theorem open_port_free_config_trace (d : Driver) (r : sp_return) (w : World) :
    (open_port_free_config d r w).2.trace =
      w.trace ++ [Event.driver DriverCall.sp_free_config] ++
        (if r ≠ SP_OK then [Event.driver (DriverCall.sp_close w.port_)] else []) := by
  unfold open_port_free_config
  rw [open_port_close_port_trace]
  rfl

theorem count_calls_singleton (p : DriverCall → Bool) (c : DriverCall) :
    count_calls p [Event.driver c] = if p c then 1 else 0 := by
  cases h : p c <;> simp [count_calls, driver_calls, h]

/-- The result of `open_port` and the number of `sp_close` calls it issues. -/
theorem open_port_result_and_closes (d : Driver)
    (baud_rate data_bits stop_bits parity flow_control : Int) (w : World) :
    (d.ret w.trace (DriverCall.sp_open w.port_) ≠ SP_OK →
      (open_port d baud_rate data_bits stop_bits parity flow_control w).1 =
        d.ret w.trace (DriverCall.sp_open w.port_) ∧
      (open_port d baud_rate data_bits stop_bits parity flow_control w).2.trace =
        w.trace ++ [Event.driver (DriverCall.sp_open w.port_)]) ∧
    (d.ret w.trace (DriverCall.sp_open w.port_) = SP_OK →
      (open_port d baud_rate data_bits stop_bits parity flow_control w).1 =
        (first_failing d
          (DriverCall.sp_new_config ::
            (field_set_steps baud_rate data_bits stop_bits parity flow_control ++
              [DriverCall.sp_set_config w.port_]))
          (w.trace ++ [Event.driver (DriverCall.sp_open w.port_)])).1 ∧
      (open_port d baud_rate data_bits stop_bits parity flow_control w).2.port_ = w.port_ ∧
      ((open_port d baud_rate data_bits stop_bits parity flow_control w).1 = SP_OK →
        count_calls is_sp_close
          (open_port d baud_rate data_bits stop_bits parity flow_control w).2.trace =
        count_calls is_sp_close w.trace) ∧
      ((open_port d baud_rate data_bits stop_bits parity flow_control w).1 ≠ SP_OK →
        count_calls is_sp_close
          (open_port d baud_rate data_bits stop_bits parity flow_control w).2.trace =
        count_calls is_sp_close w.trace + 1 ∧
        (open_port d baud_rate data_bits stop_bits parity flow_control w).2.trace.getLast? =
          some (Event.driver (DriverCall.sp_close w.port_)))) := by
  have hsteps : ∀ c ∈ field_set_steps baud_rate data_bits stop_bits parity flow_control ++
      [DriverCall.sp_set_config w.port_], is_sp_close c = false := by
    intro c hc
    simp only [field_set_steps, List.cons_append, List.nil_append, List.mem_cons,
      List.mem_singleton, List.not_mem_nil, or_false] at hc
    rcases hc with h | h | h | h | h | h <;> subst h <;> rfl
  rw [open_port_eq]
  generalize field_set_steps baud_rate data_bits stop_bits parity flow_control ++
      [DriverCall.sp_set_config w.port_] = steps at hsteps ⊢
  constructor
  · intro h0
    rw [if_pos (by simpa using h0)]
    exact ⟨rfl, rfl⟩
  · intro h0
    rw [if_neg (by simpa using h0), first_failing_cons]
    by_cases h1 : d.ret (w.trace ++ [Event.driver (DriverCall.sp_open w.port_)])
        DriverCall.sp_new_config = SP_OK
    · rw [if_neg (by simpa using h1), if_neg (by simpa using h1)]
      simp only [open_port_free_config_fst, open_port_free_config_port,
        open_port_free_config_trace, run_until_failure_fst, run_until_failure_port,
        run_until_failure_trace, sp_trace, sp_port_, count_calls_append,
        count_calls_first_failing d _ _ _ hsteps, count_calls_singleton]
      refine ⟨trivial, trivial, fun hr => ?_, fun hr => ?_⟩
      · rw [if_neg (not_not.mpr hr)]
        simp [count_calls, driver_calls, is_sp_close]
      · rw [if_pos hr]
        simp [count_calls, driver_calls, is_sp_close]
    · rw [if_pos (by simpa using h1), if_pos (by simpa using h1)]
      simp only [open_port_close_port_fst, open_port_close_port_port,
        open_port_close_port_trace, sp_trace, sp_port_, sp_fst, count_calls_append,
        count_calls_singleton]
      refine ⟨trivial, trivial, fun hr => absurd hr h1, fun hr => ?_⟩
      rw [if_pos hr]
      simp [count_calls, driver_calls, is_sp_close]

/-- When no step fails, the history after the steps is the old history followed by
every step, in order. -/
theorem first_failing_trace_of_ok (d : Driver) (cs : List DriverCall) (t : List Event)
    (hok : (first_failing d cs t).1 = SP_OK) :
    (first_failing d cs t).2 = t ++ cs.map Event.driver := by
  induction cs generalizing t with
  | nil => simp [first_failing]
  | cons c cs ih =>
    rw [first_failing_cons] at hok ⊢
    by_cases hc : d.ret t c ≠ SP_OK
    · rw [if_pos hc] at hok
      exact absurd hok hc
    · rw [if_neg hc] at hok ⊢
      rw [ih _ hok]
      simp

/-- The whole trace of `open_port` after a successful `sp_open`: the steps up to the
first failing one, then `sp_free_config` when the configuration object was created,
then `sp_close` when the result is an error. -/
theorem open_port_trace (d : Driver)
    (baud_rate data_bits stop_bits parity flow_control : Int) (w : World)
    (h0 : d.ret w.trace (DriverCall.sp_open w.port_) = SP_OK) :
    (open_port d baud_rate data_bits stop_bits parity flow_control w).2.trace =
      (first_failing d
        (DriverCall.sp_new_config ::
          (field_set_steps baud_rate data_bits stop_bits parity flow_control ++
            [DriverCall.sp_set_config w.port_]))
        (w.trace ++ [Event.driver (DriverCall.sp_open w.port_)])).2 ++
      (if d.ret (w.trace ++ [Event.driver (DriverCall.sp_open w.port_)])
          DriverCall.sp_new_config = SP_OK
        then [Event.driver DriverCall.sp_free_config] else []) ++
      (if (first_failing d
          (DriverCall.sp_new_config ::
            (field_set_steps baud_rate data_bits stop_bits parity flow_control ++
              [DriverCall.sp_set_config w.port_]))
          (w.trace ++ [Event.driver (DriverCall.sp_open w.port_)])).1 ≠ SP_OK
        then [Event.driver (DriverCall.sp_close w.port_)] else []) := by
  rw [open_port_eq]
  generalize field_set_steps baud_rate data_bits stop_bits parity flow_control ++
      [DriverCall.sp_set_config w.port_] = steps
  rw [if_neg (by simpa using h0), first_failing_cons]
  by_cases h1 : d.ret (w.trace ++ [Event.driver (DriverCall.sp_open w.port_)])
      DriverCall.sp_new_config = SP_OK
  · rw [if_neg (by simpa using h1), if_neg (by simpa using h1), if_pos h1]
    simp only [open_port_free_config_trace, run_until_failure_fst, run_until_failure_port,
      run_until_failure_trace, sp_trace, sp_port_]
  · rw [if_pos (by simpa using h1), if_pos (by simpa using h1), if_neg h1]
    simp only [open_port_close_port_trace, sp_trace, sp_port_, sp_fst, List.append_nil]

/-- C5: `open_port` rolls the open back.  When `sp_open` fails its code is returned and
`sp_open` is the only driver call (no close).  When `sp_open` succeeds, the result
is the code of the first failing step among creating the configuration, the five
field-set steps and the commit (`SP_OK` when none fails), the handle keeps its port,
and the trace is: `sp_open`, the steps up to the first failing one, `sp_free_config`
when the configuration object was created, and `sp_close` on the handle's port when
the result is an error.  So when every step succeeds the calls are exactly
`sp_open`, `sp_new_config`, the five field-set steps, `sp_set_config` and
`sp_free_config`, with no `sp_close` (the port is left open); and when a step fails
exactly one `sp_close` is issued, as the last driver call before returning. -/
theorem open_port_rolls_back (d : Driver)
    (baud_rate data_bits stop_bits parity flow_control : Int) (w : World) :
    (d.ret w.trace (DriverCall.sp_open w.port_) ≠ SP_OK →
      (open_port d baud_rate data_bits stop_bits parity flow_control w).1 =
        d.ret w.trace (DriverCall.sp_open w.port_) ∧
      (open_port d baud_rate data_bits stop_bits parity flow_control w).2.trace =
        w.trace ++ [Event.driver (DriverCall.sp_open w.port_)]) ∧
    (d.ret w.trace (DriverCall.sp_open w.port_) = SP_OK →
      (open_port d baud_rate data_bits stop_bits parity flow_control w).1 =
        (first_failing d
          (DriverCall.sp_new_config ::
            (field_set_steps baud_rate data_bits stop_bits parity flow_control ++
              [DriverCall.sp_set_config w.port_]))
          (w.trace ++ [Event.driver (DriverCall.sp_open w.port_)])).1 ∧
      (open_port d baud_rate data_bits stop_bits parity flow_control w).2.port_ = w.port_ ∧
      (open_port d baud_rate data_bits stop_bits parity flow_control w).2.trace =
        (first_failing d
          (DriverCall.sp_new_config ::
            (field_set_steps baud_rate data_bits stop_bits parity flow_control ++
              [DriverCall.sp_set_config w.port_]))
          (w.trace ++ [Event.driver (DriverCall.sp_open w.port_)])).2 ++
        (if d.ret (w.trace ++ [Event.driver (DriverCall.sp_open w.port_)])
            DriverCall.sp_new_config = SP_OK
          then [Event.driver DriverCall.sp_free_config] else []) ++
        (if (open_port d baud_rate data_bits stop_bits parity flow_control w).1 ≠ SP_OK
          then [Event.driver (DriverCall.sp_close w.port_)] else []) ∧
      ((open_port d baud_rate data_bits stop_bits parity flow_control w).1 = SP_OK →
        (open_port d baud_rate data_bits stop_bits parity flow_control w).2.trace =
          w.trace ++
            [Event.driver (DriverCall.sp_open w.port_),
             Event.driver DriverCall.sp_new_config,
             Event.driver (DriverCall.sp_set_config_baudrate baud_rate),
             Event.driver (DriverCall.sp_set_config_bits data_bits),
             Event.driver (DriverCall.sp_set_config_parity parity),
             Event.driver (DriverCall.sp_set_config_stopbits stop_bits),
             Event.driver (DriverCall.sp_set_config_flowcontrol flow_control),
             Event.driver (DriverCall.sp_set_config w.port_),
             Event.driver DriverCall.sp_free_config] ∧
        count_calls is_sp_close
          (open_port d baud_rate data_bits stop_bits parity flow_control w).2.trace =
        count_calls is_sp_close w.trace) ∧
      ((open_port d baud_rate data_bits stop_bits parity flow_control w).1 ≠ SP_OK →
        count_calls is_sp_close
          (open_port d baud_rate data_bits stop_bits parity flow_control w).2.trace =
        count_calls is_sp_close w.trace + 1 ∧
        (open_port d baud_rate data_bits stop_bits parity flow_control w).2.trace.getLast? =
          some (Event.driver (DriverCall.sp_close w.port_)))) := by
  have hold := open_port_result_and_closes d baud_rate data_bits stop_bits parity
    flow_control w
  refine ⟨hold.1, fun h0 => ?_⟩
  obtain ⟨hres, hport, hokc, hfail⟩ := hold.2 h0
  have htr := open_port_trace d baud_rate data_bits stop_bits parity flow_control w h0
  refine ⟨hres, hport, ?_, fun hr => ⟨?_, hokc hr⟩, hfail⟩
  · rw [hres]
    exact htr
  · have hff := hr
    rw [hres] at hff
    have hnew : d.ret (w.trace ++ [Event.driver (DriverCall.sp_open w.port_)])
        DriverCall.sp_new_config = SP_OK := by
      by_contra hne
      rw [first_failing_cons, if_pos hne] at hff
      exact hne hff
    rw [htr, first_failing_trace_of_ok d _ _ hff, if_pos hnew, if_neg (not_not.mpr hff)]
    simp [field_set_steps]

/-- C4: `open_port` is apply-then-commit.  For every argument tuple and every driver
in which `sp_open` and `sp_new_config` succeed and one of the five field-set steps
fails, `open_port` returns the code of the first failing field-set step, what
follows that step is exactly `sp_free_config` and `sp_close` (the configuration
object is freed once), and the commit step `sp_set_config` is never invoked, so
the device keeps the configuration it had. -/
theorem open_port_apply_then_commit (d : Driver)
    (baud_rate data_bits stop_bits parity flow_control : Int) (w : World)
    (hopen : d.ret w.trace (DriverCall.sp_open w.port_) = SP_OK)
    (hnew : d.ret (w.trace ++ [Event.driver (DriverCall.sp_open w.port_)])
      DriverCall.sp_new_config = SP_OK)
    (hfail : (first_failing d
      (field_set_steps baud_rate data_bits stop_bits parity flow_control)
      (w.trace ++ [Event.driver (DriverCall.sp_open w.port_)] ++
        [Event.driver DriverCall.sp_new_config])).1 ≠ SP_OK) :
    (open_port d baud_rate data_bits stop_bits parity flow_control w).1 =
      (first_failing d
        (field_set_steps baud_rate data_bits stop_bits parity flow_control)
        (w.trace ++ [Event.driver (DriverCall.sp_open w.port_)] ++
          [Event.driver DriverCall.sp_new_config])).1 ∧
    (open_port d baud_rate data_bits stop_bits parity flow_control w).2.trace =
      (first_failing d
        (field_set_steps baud_rate data_bits stop_bits parity flow_control)
        (w.trace ++ [Event.driver (DriverCall.sp_open w.port_)] ++
          [Event.driver DriverCall.sp_new_config])).2 ++
      [Event.driver DriverCall.sp_free_config, Event.driver (DriverCall.sp_close w.port_)] ∧
    count_calls is_sp_set_config
        (open_port d baud_rate data_bits stop_bits parity flow_control w).2.trace =
      count_calls is_sp_set_config w.trace ∧
    count_calls is_sp_free_config
        (open_port d baud_rate data_bits stop_bits parity flow_control w).2.trace =
      count_calls is_sp_free_config w.trace + 1 := by
  have hs1 : ∀ c ∈ field_set_steps baud_rate data_bits stop_bits parity flow_control,
      is_sp_set_config c = false := by
    intro c hc
    simp only [field_set_steps, List.mem_cons, List.mem_singleton, List.not_mem_nil,
      or_false] at hc
    rcases hc with h | h | h | h | h <;> subst h <;> rfl
  have hs2 : ∀ c ∈ field_set_steps baud_rate data_bits stop_bits parity flow_control,
      is_sp_free_config c = false := by
    intro c hc
    simp only [field_set_steps, List.mem_cons, List.mem_singleton, List.not_mem_nil,
      or_false] at hc
    rcases hc with h | h | h | h | h <;> subst h <;> rfl
  rw [open_port_eq, if_neg (by simpa using hopen), if_neg (by simpa using hnew)]
  generalize field_set_steps baud_rate data_bits stop_bits parity flow_control = steps
    at hfail hs1 hs2 ⊢
  simp only [open_port_free_config_fst, open_port_free_config_port,
    open_port_free_config_trace, run_until_failure_fst, run_until_failure_port,
    run_until_failure_trace, sp_trace, sp_port_,
    first_failing_append_of_fail d steps _ _ hfail, if_pos hfail, count_calls_append,
    count_calls_first_failing d _ _ _ hs1, count_calls_first_failing d _ _ _ hs2]
  refine ⟨trivial, ?_, ?_, ?_⟩
  · simp
  · simp [count_calls, driver_calls, is_sp_set_config]
  · simp [count_calls, driver_calls, is_sp_free_config]

/-- C4, witness: parity 9 is rejected with `SP_ERR_ARG`; the baud rate and the data
bits were set before, the configuration is freed, the port closed, and
`sp_set_config` is not called. -/
theorem open_port_apply_then_commit_witness :
    parityRejectingDriver.ret openWorld.trace (DriverCall.sp_open openWorld.port_) = SP_OK ∧
    (open_port parityRejectingDriver 9600 8 1 9 0 openWorld).1 = SP_ERR_ARG ∧
    (open_port parityRejectingDriver 9600 8 1 9 0 openWorld).2.trace =
      [Event.driver (DriverCall.sp_open (some 7)),
       Event.driver DriverCall.sp_new_config,
       Event.driver (DriverCall.sp_set_config_baudrate 9600),
       Event.driver (DriverCall.sp_set_config_bits 8),
       Event.driver (DriverCall.sp_set_config_parity 9),
       Event.driver DriverCall.sp_free_config,
       Event.driver (DriverCall.sp_close (some 7))] ∧
    count_calls is_sp_set_config
      (open_port parityRejectingDriver 9600 8 1 9 0 openWorld).2.trace = 0 :=
  ⟨by decide,
   (open_port_apply_then_commit parityRejectingDriver 9600 8 1 9 0 openWorld
      (by decide) (by decide) (by decide)).1,
   (open_port_apply_then_commit parityRejectingDriver 9600 8 1 9 0 openWorld
      (by decide) (by decide) (by decide)).2.1,
   (open_port_apply_then_commit parityRejectingDriver 9600 8 1 9 0 openWorld
      (by decide) (by decide) (by decide)).2.2.1⟩

/-- C5, witness: with parity 9 rejected the open fails with `SP_ERR_ARG` and ends with
`sp_close` on port 7; with parity 0 every step succeeds, the result is `SP_OK`, the
trace runs from `sp_open` to `sp_free_config` and holds no `sp_close`. -/
theorem open_port_rolls_back_witness :
    parityRejectingDriver.ret openWorld.trace (DriverCall.sp_open openWorld.port_) = SP_OK ∧
    (open_port parityRejectingDriver 9600 8 1 9 0 openWorld).1 = SP_ERR_ARG ∧
    (open_port parityRejectingDriver 9600 8 1 9 0 openWorld).2.trace.getLast? =
      some (Event.driver (DriverCall.sp_close (some 7))) ∧
    (open_port parityRejectingDriver 9600 8 1 0 0 openWorld).1 = SP_OK ∧
    (open_port parityRejectingDriver 9600 8 1 0 0 openWorld).2.trace =
      [Event.driver (DriverCall.sp_open (some 7)),
       Event.driver DriverCall.sp_new_config,
       Event.driver (DriverCall.sp_set_config_baudrate 9600),
       Event.driver (DriverCall.sp_set_config_bits 8),
       Event.driver (DriverCall.sp_set_config_parity 0),
       Event.driver (DriverCall.sp_set_config_stopbits 1),
       Event.driver (DriverCall.sp_set_config_flowcontrol 0),
       Event.driver (DriverCall.sp_set_config (some 7)),
       Event.driver DriverCall.sp_free_config] :=
  ⟨by decide,
   ((open_port_rolls_back parityRejectingDriver 9600 8 1 9 0 openWorld).2 (by decide)).1,
   (((open_port_rolls_back parityRejectingDriver 9600 8 1 9 0 openWorld).2
      (by decide)).2.2.2.2 (by decide)).2,
   ((open_port_rolls_back parityRejectingDriver 9600 8 1 0 0 openWorld).2 (by decide)).1,
   (((open_port_rolls_back parityRejectingDriver 9600 8 1 0 0 openWorld).2
      (by decide)).2.2.2.1 (by decide)).1⟩

/-! ## The host layer when every call succeeds -/

@[simp]
theorem napi_fst (h : Host) (w : World) : (napi h w).1 = h.status w.napi_calls := rfl
@[simp]
theorem napi_trace (h : Host) (w : World) : (napi h w).2.trace = w.trace := rfl
@[simp]
theorem napi_port_ (h : Host) (w : World) : (napi h w).2.port_ = w.port_ := rfl
@[simp]
theorem napi_heap (h : Host) (w : World) : (napi h w).2.heap = w.heap := rfl
@[simp]
theorem napi_napi_calls (h : Host) (w : World) :
    (napi h w).2.napi_calls = w.napi_calls + 1 := rfl

/-- A check of a call that succeeded goes on with the rest of the function. -/
theorem NAPI_CHECK_ok {α : Type} (h : Host) (status : M (napi_status × α)) (msg : String)
    (k : α → M napi_value) (w : World) (hs : (status w).1.1 = napi_ok) :
    NAPI_CHECK h status msg k w = k (status w).1.2 (status w).2 := by
  unfold NAPI_CHECK
  simp [hs]

/-- In a host where every call succeeds, a checked argument access goes on. -/
theorem NAPI_CHECK_napi_arg (h : Host) (hh : h.ok) (msg : String)
    (k : Unit → M napi_value) (w : World) :
    NAPI_CHECK h (napi_arg h) msg k w = k () (napi h w).2 :=
  NAPI_CHECK_ok h _ msg k w (hh _)

/-- In a host where every call succeeds, a checked call with an out-parameter
goes on with the new value. -/
theorem NAPI_CHECK_napi_out (h : Host) (hh : h.ok) (old : napi_value) (new : M napi_value)
    (msg : String) (k : napi_value → M napi_value) (w : World) :
    NAPI_CHECK h (napi_out h old new) msg k w =
      k (new (napi h w).2).1 (new (napi h w).2).2 := by
  have hs : (napi_out h old new w).1.1 = napi_ok := by
    simp [napi_out, hh _]
  rw [NAPI_CHECK_ok h _ msg k w hs]
  simp [napi_out, hh _]

/-- The text chosen by the `switch` of `SP_CHECK`. -/
theorem SP_CHECK_message_fst (d : Driver) (r : sp_return) (w : World) :
    (SP_CHECK_message d r w).1 = error_text r (d.last_error_message w.trace) := by
  unfold SP_CHECK_message error_text
  split_ifs <;> rfl

/-- The `switch` of `SP_CHECK` throws nothing. -/
theorem SP_CHECK_message_thrown (d : Driver) (r : sp_return) (w : World) :
    thrown (SP_CHECK_message d r w).2.trace = thrown w.trace := by
  unfold SP_CHECK_message
  split_ifs <;> simp [thrown_append, thrown]

/-- An `SP_CHECK` whose argument answers the error `e` at every evaluation and
throws nothing itself: the function returns NULL and exactly one error is thrown,
with the text for `e`. -/
theorem SP_CHECK_fail {α : Type} (d : Driver) (result : M (sp_return × α))
    (k : α → M napi_value) (w : World) (e : sp_return) (he : e ≠ SP_OK)
    (h1 : ∀ v, (result v).1.1 = e)
    (h2 : ∀ v, thrown (result v).2.trace = thrown v.trace) :
    (SP_CHECK d result k w).1 = napi_value.null ∧
    thrown (SP_CHECK d result k w).2.trace =
      thrown w.trace ++
        [error_text e (d.last_error_message (result (result w).2).2.trace)] := by
  unfold SP_CHECK
  simp only [h1, he, ne_eq, not_false_eq_true, if_true]
  constructor
  · split_ifs <;> rfl
  · split_ifs <;>
      simp [thrown_append, thrown, h2, napi_throw_error, SP_CHECK_message_fst,
        SP_CHECK_message_thrown]

/-! ## C6: the calls of `set_signals` -/

/-- C6, at the failing input `set_signals(0, 2, 2)` on the handle holding port 7.
With a driver whose `sp_set_dtr` always fails with `SP_ERR_SUPP`, the DTR-off call is
issued twice.  With a driver whose `sp_set_dtr` fails once with `SP_ERR_FAIL` and then
succeeds, the call is issued twice and the result is `SP_OK`, the code of the second
call, not the code of the call that failed. -/
theorem set_signals_repeats_failing_call :
    set_signals dtrFailingDriver 0 2 2 openWorld =
      (SP_ERR_SUPP,
       { openWorld with
         trace := [Event.driver (DriverCall.sp_set_dtr (some 7) SP_DTR_OFF),
                   Event.driver (DriverCall.sp_set_dtr (some 7) SP_DTR_OFF)] }) ∧
    set_signals dtrFailsOnceDriver 0 2 2 openWorld =
      (SP_OK,
       { openWorld with
         trace := [Event.driver (DriverCall.sp_set_dtr (some 7) SP_DTR_OFF),
                   Event.driver (DriverCall.sp_set_dtr (some 7) SP_DTR_OFF)] }) := by
  constructor <;> decide

/-- When no driver call fails, `set_signals` issues exactly the requested calls, in
the order DTR, RTS, break, and returns `SP_OK`. -/
theorem set_signals_all_ok (d : Driver) (hd : ∀ t c, d.ret t c = SP_OK)
    (dtr rts brk : Int) (w : World) :
    set_signals d dtr rts brk w =
      (SP_OK, { w with trace := w.trace ++
        (requested_calls w.port_ dtr rts brk).map Event.driver }) := by
  have hb : ∀ v : World, set_signals_brk d brk v =
      (SP_OK, { v with trace := v.trace ++
        (if brk = 0 then [Event.driver (DriverCall.sp_end_break v.port_)]
         else if brk = 1 then [Event.driver (DriverCall.sp_start_break v.port_)]
         else []) }) := by
    intro v
    unfold set_signals_brk
    split_ifs <;> simp [RETURN_ON_ERROR, hd, sp]
  have hr : ∀ v : World, set_signals_rts d rts brk v =
      (SP_OK, { v with trace := v.trace ++
        (if rts = 0 then [Event.driver (DriverCall.sp_set_rts v.port_ SP_RTS_OFF)]
         else if rts = 1 then [Event.driver (DriverCall.sp_set_rts v.port_ SP_RTS_ON)]
         else []) ++
        (if brk = 0 then [Event.driver (DriverCall.sp_end_break v.port_)]
         else if brk = 1 then [Event.driver (DriverCall.sp_start_break v.port_)]
         else []) }) := by
    intro v
    unfold set_signals_rts
    by_cases h0 : rts = 0
    · simp [h0, RETURN_ON_ERROR, hd, hb, sp]
    · by_cases h1 : rts = 1
      · simp [h1, RETURN_ON_ERROR, hd, hb, sp]
      · simp [h0, h1, hb]
  unfold set_signals requested_calls
  by_cases h0 : dtr = 0
  · simp [h0, RETURN_ON_ERROR, hd, hr, sp, apply_ite (List.map Event.driver)]
  · by_cases h1 : dtr = 1
    · simp [h1, RETURN_ON_ERROR, hd, hr, sp, apply_ite (List.map Event.driver)]
    · simp [h0, h1, hr, apply_ite (List.map Event.driver)]

/-! ## C7: what a failing `SetSignals` reports -/

/-- Masking with a single bit and comparing with zero tests that bit. -/
theorem and_two_pow_bne_zero (m k : Nat) : (m &&& 2 ^ k != 0) = m.testBit k := by
  cases h : m.testBit k
  · have : m &&& 2 ^ k = 0 := by
      apply Nat.eq_of_testBit_eq
      intro i
      rw [Nat.testBit_and, Nat.testBit_two_pow, Nat.zero_testBit]
      by_cases hk : k = i
      · subst hk; simp [h]
      · simp [hk]
    simp [this]
  · have : m &&& 2 ^ k ≠ 0 := by
      intro h0
      have h1 : (m &&& 2 ^ k).testBit k = true := by
        rw [Nat.testBit_and, Nat.testBit_two_pow_self, h]; rfl
      rw [h0, Nat.zero_testBit] at h1
      exact Bool.noConfusion h1
    simp [this]

/-- An `SP_CHECK` whose argument is `SP_OK` at its first evaluation goes on with the rest
of the function; the argument is not evaluated again. -/
theorem SP_CHECK_ok {α : Type} (d : Driver) (result : M (sp_return × α))
    (k : α → M napi_value) (w : World) (hr : (result w).1.1 = SP_OK) :
    SP_CHECK d result k w = k (result w).1.2 (result w).2 := by
  unfold SP_CHECK
  simp [hr]

theorem updateAt_length_append {α : Type} (f : α → α) (l : List α) (x : α) :
    updateAt f l.length (l ++ [x]) = l ++ [f x] := by
  induction l with
  | nil => rfl
  | cons a l ih => simp [updateAt, ih]

theorem NAPI_CHECK_set_named_property (h : Host) (hh : h.ok) (id : Nat) (key : String)
    (v : napi_value) (msg : String) (k : Unit → M napi_value) (w : World) :
    NAPI_CHECK h (napi_set_named_property h (napi_value.object id) key v) msg k w =
      k () { (napi h w).2 with
        heap := updateAt (fun o => { o with props := setProp o.props key v }) id w.heap } := by
  have hs : (napi_set_named_property h (napi_value.object id) key v w).1.1 = napi_ok := by
    simp [napi_set_named_property, hh _]
  rw [NAPI_CHECK_ok h _ msg k w hs]
  simp [napi_set_named_property, hh _]

/-- The object `GetSignals` builds when the driver call and every host call succeed. -/
theorem GetSignals_ok (h : Host) (d : Driver) (w : World) (hh : h.ok)
    (hd : d.ret w.trace (DriverCall.sp_get_signals w.port_) = SP_OK) :
    (GetSignals h d w).1 = napi_value.object w.heap.length ∧
    (GetSignals h d w).2.heap = w.heap ++
      [{ byteLength := none,
         props := [("clearToSend", napi_value.boolean ((d.signal_mask w.trace).testBit 0)),
                   ("dataCarrierDetect", napi_value.boolean ((d.signal_mask w.trace).testBit 2)),
                   ("dataSetReady", napi_value.boolean ((d.signal_mask w.trace).testBit 1)),
                   ("ringIndicator", napi_value.boolean ((d.signal_mask w.trace).testBit 3))],
         elems := [] }] ∧
    (GetSignals h d w).2.trace = w.trace ++ [Event.driver (DriverCall.sp_get_signals w.port_)] := by
  have b0 : (d.signal_mask w.trace &&& SP_SIG_CTS != 0) = (d.signal_mask w.trace).testBit 0 :=
    and_two_pow_bne_zero (d.signal_mask w.trace) 0
  have b1 : (d.signal_mask w.trace &&& SP_SIG_DSR != 0) = (d.signal_mask w.trace).testBit 1 :=
    and_two_pow_bne_zero (d.signal_mask w.trace) 1
  have b2 : (d.signal_mask w.trace &&& SP_SIG_DCD != 0) = (d.signal_mask w.trace).testBit 2 :=
    and_two_pow_bne_zero (d.signal_mask w.trace) 2
  have b3 : (d.signal_mask w.trace &&& SP_SIG_RI != 0) = (d.signal_mask w.trace).testBit 3 :=
    and_two_pow_bne_zero (d.signal_mask w.trace) 3
  unfold GetSignals
  simp only [NAPI_CHECK_napi_arg h hh]
  rw [SP_CHECK_ok _ _ _ _ (by simpa [get_signals] using hd)]
  simp only [napi_create_object, napi_get_boolean, NAPI_CHECK_napi_out h hh, alloc,
    NAPI_CHECK_set_named_property h hh, napi_heap, napi_trace, get_signals, sp_heap, sp_trace,
    updateAt_length_append, b0, b1, b2, b3, napi_port_]
  simp [setProp]


theorem props_of_append_length (heap : List JsObject) (o : JsObject) :
    props_of (heap ++ [o]) (napi_value.object heap.length) = o.props := by
  simp [props_of]

theorem xor_two_pow_testBit (m k i : Nat) :
    (m ^^^ 2 ^ k).testBit i = if k = i then !m.testBit i else m.testBit i := by
  rw [Nat.testBit_xor, Nat.testBit_two_pow]
  by_cases h : k = i <;> simp [h]

/-- The object `GetSignals` returns, read as a `SignalState`. -/
theorem GetSignals_read (h : Host) (d : Driver) (w : World) (hh : h.ok)
    (hd : d.ret w.trace (DriverCall.sp_get_signals w.port_) = SP_OK) :
    read_SignalState (GetSignals h d w).2.heap (GetSignals h d w).1 =
      some { clearToSend := (d.signal_mask w.trace).testBit 0,
             dataSetReady := (d.signal_mask w.trace).testBit 1,
             dataCarrierDetect := (d.signal_mask w.trace).testBit 2,
             ringIndicator := (d.signal_mask w.trace).testBit 3 } := by
  obtain ⟨h1, h2, -⟩ := GetSignals_ok h d w hh hd
  rw [h1, h2]
  simp [read_SignalState, get_prop, props_of_append_length, List.lookup]


/-- C8: `GetSignals` decodes the mask into independent booleans.  The four mask
constants are the single bits 0 to 3.  For every mask the driver stores with
`SP_OK` (every host call succeeding), the object returned has `clearToSend` equal to
the CTS bit, `dataSetReady` to the DSR bit, `dataCarrierDetect` to the DCD bit and
`ringIndicator` to the RI bit; flipping one of the four bits of the mask negates
the corresponding field and leaves the other three as they were. -/
theorem GetSignals_decodes_mask (h : Host) (d : Driver) (w : World) (hh : h.ok)
    (hd : d.ret w.trace (DriverCall.sp_get_signals w.port_) = SP_OK) :
    (SP_SIG_CTS = 2 ^ 0 ∧ SP_SIG_DSR = 2 ^ 1 ∧ SP_SIG_DCD = 2 ^ 2 ∧ SP_SIG_RI = 2 ^ 3) ∧
    read_SignalState (GetSignals h d w).2.heap (GetSignals h d w).1 =
      some { clearToSend := (d.signal_mask w.trace).testBit 0,
             dataSetReady := (d.signal_mask w.trace).testBit 1,
             dataCarrierDetect := (d.signal_mask w.trace).testBit 2,
             ringIndicator := (d.signal_mask w.trace).testBit 3 } ∧
    read_SignalState
        (GetSignals h (withMask d (d.signal_mask w.trace ^^^ SP_SIG_CTS)) w).2.heap
        (GetSignals h (withMask d (d.signal_mask w.trace ^^^ SP_SIG_CTS)) w).1 =
      some { clearToSend := !(d.signal_mask w.trace).testBit 0,
             dataSetReady := (d.signal_mask w.trace).testBit 1,
             dataCarrierDetect := (d.signal_mask w.trace).testBit 2,
             ringIndicator := (d.signal_mask w.trace).testBit 3 } ∧
    read_SignalState
        (GetSignals h (withMask d (d.signal_mask w.trace ^^^ SP_SIG_DSR)) w).2.heap
        (GetSignals h (withMask d (d.signal_mask w.trace ^^^ SP_SIG_DSR)) w).1 =
      some { clearToSend := (d.signal_mask w.trace).testBit 0,
             dataSetReady := !(d.signal_mask w.trace).testBit 1,
             dataCarrierDetect := (d.signal_mask w.trace).testBit 2,
             ringIndicator := (d.signal_mask w.trace).testBit 3 } ∧
    read_SignalState
        (GetSignals h (withMask d (d.signal_mask w.trace ^^^ SP_SIG_DCD)) w).2.heap
        (GetSignals h (withMask d (d.signal_mask w.trace ^^^ SP_SIG_DCD)) w).1 =
      some { clearToSend := (d.signal_mask w.trace).testBit 0,
             dataSetReady := (d.signal_mask w.trace).testBit 1,
             dataCarrierDetect := !(d.signal_mask w.trace).testBit 2,
             ringIndicator := (d.signal_mask w.trace).testBit 3 } ∧
    read_SignalState
        (GetSignals h (withMask d (d.signal_mask w.trace ^^^ SP_SIG_RI)) w).2.heap
        (GetSignals h (withMask d (d.signal_mask w.trace ^^^ SP_SIG_RI)) w).1 =
      some { clearToSend := (d.signal_mask w.trace).testBit 0,
             dataSetReady := (d.signal_mask w.trace).testBit 1,
             dataCarrierDetect := (d.signal_mask w.trace).testBit 2,
             ringIndicator := !(d.signal_mask w.trace).testBit 3 } := by
  have flip : ∀ k : Nat,
      read_SignalState
          (GetSignals h (withMask d (d.signal_mask w.trace ^^^ 2 ^ k)) w).2.heap
          (GetSignals h (withMask d (d.signal_mask w.trace ^^^ 2 ^ k)) w).1 =
        some { clearToSend := (d.signal_mask w.trace ^^^ 2 ^ k).testBit 0,
               dataSetReady := (d.signal_mask w.trace ^^^ 2 ^ k).testBit 1,
               dataCarrierDetect := (d.signal_mask w.trace ^^^ 2 ^ k).testBit 2,
               ringIndicator := (d.signal_mask w.trace ^^^ 2 ^ k).testBit 3 } :=
    fun k => GetSignals_read h (withMask d (d.signal_mask w.trace ^^^ 2 ^ k)) w hh hd
  refine ⟨⟨rfl, rfl, rfl, rfl⟩, GetSignals_read h d w hh hd, ?_, ?_, ?_, ?_⟩
  · have := flip 0
    simp only [xor_two_pow_testBit] at this
    exact this
  · have := flip 1
    simp only [xor_two_pow_testBit] at this
    exact this
  · have := flip 2
    simp only [xor_two_pow_testBit] at this
    exact this
  · have := flip 3
    simp only [xor_two_pow_testBit] at this
    exact this


/-- C8, witness: the mask with CTS and DCD set reads as clearToSend and
dataCarrierDetect true, dataSetReady and ringIndicator false. -/
theorem GetSignals_decodes_mask_witness :
    okHost.ok ∧
    ctsDcdDriver.ret openWorld.trace (DriverCall.sp_get_signals openWorld.port_) = SP_OK ∧
    read_SignalState (GetSignals okHost ctsDcdDriver openWorld).2.heap
        (GetSignals okHost ctsDcdDriver openWorld).1 =
      some { clearToSend := true, dataSetReady := false, dataCarrierDetect := true,
             ringIndicator := false } :=
  ⟨fun _ => rfl, rfl,
   (GetSignals_decodes_mask okHost ctsDcdDriver openWorld (fun _ => rfl) rfl).2.1⟩

/-! ## C10: the result of a read -/

/-- The conversion to `int32_t` keeps a value that is in the range of `int32_t`. -/
theorem to_int32_t_of_range (x : Int) (h1 : -2147483648 ≤ x) (h2 : x < 2147483648) :
    to_int32_t x = x := by
  unfold to_int32_t
  omega

/-- C10: `ReadData` turns a negative driver result into an error and never coerces
it.  For every requested size and every driver result `n` (a C `int`), every host
call succeeding: `ReadData` returns NULL iff `n < 0`; when `n < 0` it throws exactly
one error, with the text for the code `n`; when `0 ≤ n` it throws nothing and returns
the array buffer of the requested size with the property `bytesRead` equal to `n`,
so a result of 0 is a success with `bytesRead = 0`. -/
theorem ReadData_result (h : Host) (d : Driver) (bytes_to_read : Nat) (w : World)
    (hh : h.ok)
    (h1 : -2147483648 ≤ d.ret w.trace (DriverCall.sp_nonblocking_read w.port_ bytes_to_read))
    (h2 : d.ret w.trace (DriverCall.sp_nonblocking_read w.port_ bytes_to_read) < 2147483648) :
    ((ReadData h d bytes_to_read w).1 = napi_value.null ↔
      d.ret w.trace (DriverCall.sp_nonblocking_read w.port_ bytes_to_read) < 0) ∧
    (d.ret w.trace (DriverCall.sp_nonblocking_read w.port_ bytes_to_read) < 0 →
      thrown (ReadData h d bytes_to_read w).2.trace =
        thrown w.trace ++
          [error_text (d.ret w.trace (DriverCall.sp_nonblocking_read w.port_ bytes_to_read))
            (d.last_error_message (w.trace ++
              [Event.driver (DriverCall.sp_nonblocking_read w.port_ bytes_to_read)]))]) ∧
    (0 ≤ d.ret w.trace (DriverCall.sp_nonblocking_read w.port_ bytes_to_read) →
      (ReadData h d bytes_to_read w).1 = napi_value.object w.heap.length ∧
      (ReadData h d bytes_to_read w).2.heap = w.heap ++
        [{ byteLength := some bytes_to_read,
           props := [("bytesRead", napi_value.int32
             (d.ret w.trace (DriverCall.sp_nonblocking_read w.port_ bytes_to_read)))],
           elems := [] }] ∧
      (ReadData h d bytes_to_read w).2.trace = w.trace ++
        [Event.driver (DriverCall.sp_nonblocking_read w.port_ bytes_to_read)]) := by
  have hneg : d.ret w.trace (DriverCall.sp_nonblocking_read w.port_ bytes_to_read) < 0 →
      (ReadData h d bytes_to_read w).1 = napi_value.null ∧
      thrown (ReadData h d bytes_to_read w).2.trace =
        thrown w.trace ++
          [error_text (d.ret w.trace (DriverCall.sp_nonblocking_read w.port_ bytes_to_read))
            (d.last_error_message (w.trace ++
              [Event.driver (DriverCall.sp_nonblocking_read w.port_ bytes_to_read)]))] := by
    intro hn
    have he : d.ret w.trace (DriverCall.sp_nonblocking_read w.port_ bytes_to_read) ≠ SP_OK := by
      intro heq
      rw [heq] at hn
      exact absurd hn (by decide)
    unfold ReadData
    simp only [NAPI_CHECK_napi_arg h hh, napi_create_arraybuffer, NAPI_CHECK_napi_out h hh,
      read_data, sp_fst, napi_trace, napi_port_, alloc, if_pos hn]
    have := SP_CHECK_fail d
      (read_var (d.ret w.trace (DriverCall.sp_nonblocking_read w.port_ bytes_to_read)))
      (fun _ => NAPI_CHECK h
        (napi_create_int32 h (to_int32_t
          (d.ret w.trace (DriverCall.sp_nonblocking_read w.port_ bytes_to_read)))
          napi_value.null)
        "could not create bytesRead" fun field =>
        NAPI_CHECK h (napi_set_named_property h
          (napi_value.object (napi h (napi h (napi h (napi h w).2).2).2).2.heap.length)
          "bytesRead" field)
          "could not set 'bytesRead' property" fun _ v =>
          (napi_value.object (napi h (napi h (napi h (napi h w).2).2).2).2.heap.length, v))
      (sp d (DriverCall.sp_nonblocking_read w.port_ bytes_to_read)
        { (napi h (napi h (napi h (napi h w).2).2).2).2 with
          heap := (napi h (napi h (napi h (napi h w).2).2).2).2.heap ++
            [{ byteLength := some bytes_to_read, props := [], elems := [] }] }).2
      _ he (fun _ => rfl) (fun _ => rfl)
    simpa [read_var, thrown_append, thrown] using this
  have hpos : 0 ≤ d.ret w.trace (DriverCall.sp_nonblocking_read w.port_ bytes_to_read) →
      (ReadData h d bytes_to_read w).1 = napi_value.object w.heap.length ∧
      (ReadData h d bytes_to_read w).2.heap = w.heap ++
        [{ byteLength := some bytes_to_read,
           props := [("bytesRead", napi_value.int32
             (d.ret w.trace (DriverCall.sp_nonblocking_read w.port_ bytes_to_read)))],
           elems := [] }] ∧
      (ReadData h d bytes_to_read w).2.trace = w.trace ++
        [Event.driver (DriverCall.sp_nonblocking_read w.port_ bytes_to_read)] := by
    intro hn
    unfold ReadData
    simp only [NAPI_CHECK_napi_arg h hh, napi_create_arraybuffer, NAPI_CHECK_napi_out h hh,
      read_data, sp_fst, napi_trace, napi_port_, alloc, if_neg (not_lt.mpr hn),
      napi_create_int32, NAPI_CHECK_set_named_property h hh, to_int32_t_of_range _ h1 h2,
      napi_heap, sp_heap, sp_trace, updateAt_length_append]
    simp [setProp]
  refine ⟨⟨fun hnull => ?_, fun hn => (hneg hn).1⟩, fun hn => (hneg hn).2, hpos⟩
  by_contra hc
  rw [(hpos (not_lt.mp hc)).1] at hnull
  exact napi_value.noConfusion hnull


/-- C10, witness: a read of 16 bytes with no data available returns the buffer with
`bytesRead = 0`. -/
theorem ReadData_result_witness :
    okHost.ok ∧
    allOkDriver.ret openWorld.trace (DriverCall.sp_nonblocking_read openWorld.port_ 16) = 0 ∧
    (ReadData okHost allOkDriver 16 openWorld).1 = napi_value.object 0 ∧
    (ReadData okHost allOkDriver 16 openWorld).2.heap =
      [{ byteLength := some 16, props := [("bytesRead", napi_value.int32 0)], elems := [] }] :=
  ⟨fun _ => rfl, rfl,
   ((ReadData_result okHost allOkDriver 16 openWorld (fun _ => rfl) (by decide)
      (by decide)).2.2 (by decide)).1,
   ((ReadData_result okHost allOkDriver 16 openWorld (fun _ => rfl) (by decide)
      (by decide)).2.2 (by decide)).2.1⟩

/-- A read that fails with `SP_ERR_FAIL` returns NULL and throws the driver's
message. -/
theorem ReadData_failing_read :
    (ReadData okHost readFailingDriver 16 openWorld).1 = napi_value.null ∧
    thrown (ReadData okHost readFailingDriver 16 openWorld).2.trace =
      ["Input/output error"] := by
  constructor <;> decide

/-! ## C9: the enumeration and the USB ids -/

theorem free_list_and_check_ok (h : Host) (d : Driver) (msg : String) (k : M napi_value)
    (w : World) : free_list_and_check h d napi_ok msg k w = k w := by
  simp [free_list_and_check]

theorem napi_out_ok (h : Host) (hh : h.ok) (old : napi_value) (new : M napi_value)
    (w : World) :
    napi_out h old new w = ((napi_ok, (new (napi h w).2).1), (new (napi h w).2).2) := by
  simp [napi_out, hh _]

theorem napi_set_named_property_ok (h : Host) (hh : h.ok) (id : Nat) (key : String)
    (v : napi_value) (w : World) :
    napi_set_named_property h (napi_value.object id) key v w =
      ((napi_ok, ()), { (napi h w).2 with
        heap := updateAt (fun o => { o with props := setProp o.props key v }) id w.heap }) := by
  simp [napi_set_named_property, hh _]

theorem napi_set_element_ok (h : Host) (hh : h.ok) (id : Nat) (i : Nat)
    (v : napi_value) (w : World) :
    napi_set_element h (napi_value.object id) i v w =
      ((napi_ok, ()), { (napi h w).2 with
        heap := updateAt (fun o => { o with elems := setElem o.elems i v }) id w.heap }) := by
  simp [napi_set_element, hh _]

theorem updateAt_append_cons {α : Type} (f : α → α) (l : List α) (x : α) (r : List α) :
    updateAt f l.length (l ++ x :: r) = l ++ f x :: r := by
  induction l with
  | nil => rfl
  | cons a l ih => simp [updateAt, ih]

theorem updateAt_of_eq_length {α : Type} (f : α → α) (n : Nat) (l : List α) (x : α)
    (r : List α) (hn : n = l.length) :
    updateAt f n (l ++ x :: r) = l ++ f x :: r := by
  subst hn
  exact updateAt_append_cons f l x r

theorem updateAt_last {α : Type} (f : α → α) (H0 : List α) (arr arr2 : α) (objs : List α)
    (e : α) :
    updateAt f (H0 ++ arr :: objs).length (H0 ++ arr2 :: (objs ++ [e])) =
      H0 ++ arr2 :: (objs ++ [f e]) := by
  have e1 : H0 ++ arr2 :: (objs ++ [e]) = (H0 ++ arr2 :: objs) ++ [e] := by simp
  have e2 : (H0 ++ arr :: objs).length = (H0 ++ arr2 :: objs).length := by simp
  rw [e1, e2, updateAt_length_append]
  simp

theorem length_append_cons {α : Type} (H0 : List α) (arr : α) (objs : List α) :
    (H0 ++ arr :: objs).length = H0.length + 1 + objs.length := by
  simp only [List.length_append, List.length_cons]
  omega

/-- One round of the loop of `ListAllPorts` for a named port whose lookup is fine: the
descriptor is appended to the heap and stored at index `i` of the array. -/
theorem loop_named_step (h : Host) (d : Driver) (hh : h.ok) (port : PortInfo)
    (rest : List PortInfo) (i : Nat) (w : World) (n : String)
    (hname : port.name = some n)
    (hfine : port.vid_pid_return = SP_OK ∨ port.vid_pid_return = SP_ERR_ARG)
    (H0 : List JsObject) (arr : JsObject) (objs : List JsObject)
    (hheap : w.heap = H0 ++ arr :: objs) :
    ∃ w1, ListAllPorts_loop h d (napi_value.object H0.length) (port :: rest) i w =
        ListAllPorts_loop h d (napi_value.object H0.length) rest (i + 1) w1 ∧
      w1.heap = H0 ++
        { arr with
          elems := setElem arr.elems i (napi_value.object (H0.length + 1 + objs.length)) } ::
        (objs ++ [{ byteLength := none, props := descriptor port n, elems := [] }]) ∧
      w1.trace = w.trace ++
        [Event.driver (DriverCall.sp_get_port_name i),
         Event.driver (DriverCall.sp_get_port_usb_vid_pid i)] := by
  have hlen : w.heap.length = (H0 ++ arr :: objs).length := by rw [hheap]
  rw [ListAllPorts_loop]
  simp only [hname, napi_create_object, napi_create_string_utf8, napi_out_ok h hh, alloc,
    free_list_and_check_ok, napi_set_named_property_ok h hh, napi_set_element_ok h hh,
    napi_heap, sp_heap, napi_trace, napi_port_, napi_napi_calls, sp_trace, sp_port_,
    sp_napi_calls, hheap]
  have hnot : ¬(port.vid_pid_return ≠ SP_OK ∧ port.vid_pid_return ≠ SP_ERR_ARG) := by
    rcases hfine with hf | hf <;> simp [hf]
  rw [if_neg hnot]
  unfold ListAllPorts_usb_ids
  by_cases hok : port.vid_pid_return = SP_OK
  · simp only [hok, if_true, napi_create_int32, napi_out_ok h hh, free_list_and_check_ok,
      napi_set_named_property_ok h hh, napi_heap, sp_heap, napi_trace, napi_port_,
      napi_napi_calls, sp_trace, sp_port_, sp_napi_calls]
    refine ⟨_, rfl, ?_, ?_⟩
    · simp only [List.append_assoc, List.cons_append, updateAt_last, updateAt_append_cons]
      rw [length_append_cons]
      simp [setProp, descriptor, hok]
    · simp
  · simp only [hok, if_false]
    refine ⟨_, rfl, ?_, ?_⟩
    · simp only [List.append_assoc, List.cons_append, updateAt_last, updateAt_append_cons]
      rw [length_append_cons]
      simp [setProp, descriptor, hok]
    · simp


theorem cell_setElem_self (xs : List (Option napi_value)) (i : Nat) (v : napi_value) :
    cell (setElem xs i v) i = some v := by
  have hlt : i < (xs ++ List.replicate (i + 1 - xs.length) none).length := by
    simp only [List.length_append, List.length_replicate]
    omega
  have hlt2 : i < xs.length + (i + 1 - xs.length) := by omega
  simp [cell, setElem, List.getElem?_set, hlt2]

theorem cell_setElem_ne (xs : List (Option napi_value)) (i j : Nat) (v : napi_value)
    (hj : j ≠ i) : cell (setElem xs i v) j = cell xs j := by
  have hij : i ≠ j := fun e => hj e.symm
  simp only [cell, setElem]
  rw [List.getElem?_set_ne hij]
  by_cases hlt : j < xs.length
  · rw [List.getElem?_append_left hlt]
  · have hge : xs.length ≤ j := Nat.le_of_not_lt hlt
    rw [List.getElem?_append_right hge, List.getElem?_eq_none hge]
    by_cases hk : j - xs.length < i + 1 - xs.length
    · simp [List.getElem?_replicate, hk]
    · simp [List.getElem?_replicate, hk]

theorem loop_unnamed_step (h : Host) (d : Driver) (ret : napi_value) (port : PortInfo)
    (rest : List PortInfo) (i : Nat) (w : World) (hname : port.name = none) :
    ListAllPorts_loop h d ret (port :: rest) i w =
      ListAllPorts_loop h d ret rest (i + 1) (sp d (DriverCall.sp_get_port_name i) w).2 := by
  rw [ListAllPorts_loop]
  simp only [hname]

theorem getElem?_heap_new (H0 : List JsObject) (x : JsObject) (objs : List JsObject)
    (e : JsObject) (D : List JsObject) :
    (H0 ++ x :: (objs ++ e :: D))[H0.length + 1 + objs.length]? = some e := by
  have e1 : H0 ++ x :: (objs ++ e :: D) = (H0 ++ x :: objs) ++ e :: D := by simp
  have hl := length_append_cons H0 x objs
  rw [e1, List.getElem?_append_right (Nat.le_of_eq hl), hl]
  simp

theorem getElem?_heap_array (H0 : List JsObject) (x : JsObject) (r : List JsObject) :
    (H0 ++ x :: r)[H0.length]? = some x := by
  rw [List.getElem?_append_right (Nat.le_refl _)]
  simp

/-- The loop over ports whose lookups are fine: the array is returned, nothing is
thrown, the list is freed once, and every named port has its descriptor at its own
index. -/
theorem loop_fine (h : Host) (d : Driver) (hh : h.ok) (H0 : List JsObject) :
    ∀ (ports : List PortInfo) (i : Nat) (w : World) (arr : JsObject) (objs : List JsObject),
      (∀ p ∈ ports, lookup_fine p) → w.heap = H0 ++ arr :: objs →
      (ListAllPorts_loop h d (napi_value.object H0.length) ports i w).1 =
        napi_value.object H0.length ∧
      thrown (ListAllPorts_loop h d (napi_value.object H0.length) ports i w).2.trace =
        thrown w.trace ∧
      count_calls is_sp_free_port_list
          (ListAllPorts_loop h d (napi_value.object H0.length) ports i w).2.trace =
        count_calls is_sp_free_port_list w.trace + 1 ∧
      ∃ E D,
        (ListAllPorts_loop h d (napi_value.object H0.length) ports i w).2.heap =
          H0 ++ { arr with elems := E } :: (objs ++ D) ∧
        (∀ j, j < i → cell E j = cell arr.elems j) ∧
        (∀ j p n, ports[j]? = some p → p.name = some n →
          ∃ id, cell E (i + j) = some (napi_value.object id) ∧
            (H0 ++ { arr with elems := E } :: (objs ++ D))[id]? =
              some { byteLength := none, props := descriptor p n, elems := [] }) := by
  intro ports
  induction ports with
  | nil =>
    intro i w arr objs _ hheap
    refine ⟨rfl, ?_, ?_, arr.elems, [], ?_, fun _ _ => rfl, ?_⟩
    · simp [ListAllPorts_loop, thrown_append, thrown]
    · simp [ListAllPorts_loop, count_calls_append, count_calls_singleton,
        is_sp_free_port_list]
    · simp [ListAllPorts_loop, hheap]
    · intro j p n hj
      simp at hj
  | cons port rest ih =>
    intro i w arr objs hfine hheap
    have hrest : ∀ p ∈ rest, lookup_fine p := fun p hp => hfine p (List.mem_cons_of_mem _ hp)
    cases hname : port.name with
    | none =>
      rw [loop_unnamed_step h d _ port rest i w hname]
      obtain ⟨h1, h2, h3, E, D, h4, h5, h6⟩ :=
        ih (i + 1) (sp d (DriverCall.sp_get_port_name i) w).2 arr objs hrest
          (by rw [sp_heap]; exact hheap)
      refine ⟨h1, ?_, ?_, E, D, h4, fun j hj => h5 j (Nat.lt_succ_of_lt hj), ?_⟩
      · rw [h2]; simp [thrown_append, thrown]
      · rw [h3]
        simp [count_calls_append, count_calls_singleton, is_sp_free_port_list]
      · intro j p n hj hn
        cases j with
        | zero =>
          simp only [List.getElem?_cons_zero, Option.some.injEq] at hj
          subst hj
          rw [hname] at hn
          exact Option.noConfusion hn
        | succ j =>
          simp only [List.getElem?_cons_succ] at hj
          obtain ⟨id, e1, e2⟩ := h6 j p n hj hn
          exact ⟨id, by rw [← e1]; congr 1; omega, e2⟩
    | some n0 =>
      have hf : port.vid_pid_return = SP_OK ∨ port.vid_pid_return = SP_ERR_ARG :=
        hfine port (List.mem_cons_self _ _) (by rw [hname]; exact Option.noConfusion)
      obtain ⟨w1, hstep, hheap1, htrace1⟩ :=
        loop_named_step h d hh port rest i w n0 hname hf H0 arr objs hheap
      rw [hstep]
      obtain ⟨h1, h2, h3, E, D, h4, h5, h6⟩ :=
        ih (i + 1) w1
          { arr with
            elems := setElem arr.elems i (napi_value.object (H0.length + 1 + objs.length)) }
          (objs ++ [{ byteLength := none, props := descriptor port n0, elems := [] }])
          hrest hheap1
      have hheapE : (ListAllPorts_loop h d (napi_value.object H0.length) rest (i + 1) w1).2.heap =
          H0 ++ { arr with elems := E } ::
            (objs ++ { byteLength := none, props := descriptor port n0, elems := [] } :: D) := by
        rw [h4]; simp
      refine ⟨h1, ?_, ?_, E,
        { byteLength := none, props := descriptor port n0, elems := [] } :: D, hheapE, ?_, ?_⟩
      · rw [h2, htrace1]; simp [thrown_append, thrown]
      · rw [h3, htrace1, count_calls_append]
        have hz : count_calls is_sp_free_port_list
            [Event.driver (DriverCall.sp_get_port_name i),
             Event.driver (DriverCall.sp_get_port_usb_vid_pid i)] = 0 := rfl
        rw [hz]
      · intro j hj
        rw [h5 j (Nat.lt_succ_of_lt hj)]
        exact cell_setElem_ne _ _ _ _ (Nat.ne_of_lt hj)
      · intro j p n hj hn
        cases j with
        | zero =>
          simp only [List.getElem?_cons_zero, Option.some.injEq] at hj
          subst hj
          rw [hname] at hn
          have hnn : n0 = n := Option.some.inj hn
          subst hnn
          refine ⟨H0.length + 1 + objs.length, ?_, getElem?_heap_new _ _ _ _ _⟩
          rw [Nat.add_zero, h5 i (Nat.lt_succ_self i)]
          exact cell_setElem_self _ _ _
        | succ j =>
          simp only [List.getElem?_cons_succ] at hj
          obtain ⟨id, e1, e2⟩ := h6 j p n hj hn
          refine ⟨id, by rw [← e1]; congr 1; omega, ?_⟩
          rw [← e2]; simp

theorem count_calls_throw (p : DriverCall → Bool) (t : List Event) (m : String) :
    count_calls p (t ++ [Event.napi_throw_error m]) = count_calls p t := by
  simp [count_calls, driver_calls_append, driver_calls]

theorem count_calls_cons_throw (p : DriverCall → Bool) (t : List Event) (m : String) :
    count_calls p (Event.napi_throw_error m :: t) = count_calls p t := rfl

theorem count_calls_cons_driver (p : DriverCall → Bool) (t : List Event) (c : DriverCall) :
    count_calls p (Event.driver c :: t) = count_calls p t + if p c then 1 else 0 := by
  simp [count_calls, driver_calls, List.countP_cons]

theorem count_calls_nil (p : DriverCall → Bool) : count_calls p [] = 0 := rfl

/-- A failing `SP_CHECK` of a variable makes no driver call besides fetching and
freeing the error message. -/
theorem SP_CHECK_read_var_count (d : Driver) (r : sp_return)
    (k : Unit → M napi_value) (w : World) (he : r ≠ SP_OK) (p : DriverCall → Bool)
    (hp1 : p DriverCall.sp_last_error_message = false)
    (hp2 : p DriverCall.sp_free_error_message = false) :
    count_calls p (SP_CHECK d (read_var r) k w).2.trace = count_calls p w.trace := by
  have hm : count_calls p (SP_CHECK_message d r w).2.trace = count_calls p w.trace := by
    unfold SP_CHECK_message
    split_ifs <;> simp [count_calls_append, count_calls_singleton, hp1]
  unfold SP_CHECK
  simp only [read_var, he, ne_eq, not_false_eq_true, if_true]
  split_ifs <;>
    simp [napi_throw_error, count_calls_append, count_calls_cons_throw,
      count_calls_cons_driver, count_calls_nil, hm, hp2]

/-- The round of the loop for a named port whose lookup returns neither `SP_OK` nor
`SP_ERR_ARG`: the list is freed and control reaches `SP_CHECK(r)`. -/
theorem loop_bad_step (h : Host) (d : Driver) (hh : h.ok) (a : Nat) (port : PortInfo)
    (rest : List PortInfo) (i : Nat) (w : World) (n : String)
    (hname : port.name = some n)
    (hr1 : port.vid_pid_return ≠ SP_OK) (hr2 : port.vid_pid_return ≠ SP_ERR_ARG) :
    ∃ k W, ListAllPorts_loop h d (napi_value.object a) (port :: rest) i w =
        SP_CHECK d (read_var port.vid_pid_return) k W ∧
      W.trace = w.trace ++
        [Event.driver (DriverCall.sp_get_port_name i),
         Event.driver (DriverCall.sp_get_port_usb_vid_pid i),
         Event.driver DriverCall.sp_free_port_list] := by
  rw [ListAllPorts_loop]
  simp only [hname, napi_create_object, napi_create_string_utf8, napi_out_ok h hh, alloc,
    free_list_and_check_ok, napi_set_named_property_ok h hh, napi_set_element_ok h hh,
    napi_heap, sp_heap, napi_trace, napi_port_, napi_napi_calls, sp_trace, sp_port_,
    sp_napi_calls]
  rw [if_pos ⟨hr1, hr2⟩]
  exact ⟨_, _, rfl, by simp⟩

/-- The loop over a list whose first port with a failing lookup is `p`: NULL is
returned, one error is thrown and the list is freed once. -/
theorem loop_abort (h : Host) (d : Driver) (hh : h.ok) (H0 : List JsObject) (p : PortInfo)
    (post : List PortInfo) (n : String) (hname : p.name = some n)
    (hr1 : p.vid_pid_return ≠ SP_OK) (hr2 : p.vid_pid_return ≠ SP_ERR_ARG) :
    ∀ (pre : List PortInfo) (i : Nat) (w : World) (arr : JsObject) (objs : List JsObject),
      (∀ q ∈ pre, lookup_fine q) → w.heap = H0 ++ arr :: objs →
      (ListAllPorts_loop h d (napi_value.object H0.length) (pre ++ p :: post) i w).1 =
        napi_value.null ∧
      (∃ last, thrown
          (ListAllPorts_loop h d (napi_value.object H0.length) (pre ++ p :: post) i w).2.trace =
        thrown w.trace ++ [error_text p.vid_pid_return last]) ∧
      count_calls is_sp_free_port_list
          (ListAllPorts_loop h d (napi_value.object H0.length) (pre ++ p :: post) i w).2.trace =
        count_calls is_sp_free_port_list w.trace + 1 := by
  intro pre
  induction pre with
  | nil =>
    intro i w arr objs _ _
    obtain ⟨k, W, heq, htr⟩ := loop_bad_step h d hh H0.length p post i w n hname hr1 hr2
    rw [List.nil_append, heq]
    obtain ⟨f1, f2⟩ := SP_CHECK_fail d (read_var p.vid_pid_return) k W p.vid_pid_return hr1
      (fun _ => rfl) (fun _ => rfl)
    have hW : thrown W.trace = thrown w.trace := by
      rw [htr]
      simp [thrown_append, thrown]
    refine ⟨f1, ⟨d.last_error_message W.trace, ?_⟩, ?_⟩
    · rw [f2, hW]
      rfl
    · rw [SP_CHECK_read_var_count d _ k W hr1 _ rfl rfl, htr, count_calls_append]
      rfl
  | cons q pre ih =>
    intro i w arr objs hfine hheap
    have hrest : ∀ x ∈ pre, lookup_fine x := fun x hx => hfine x (List.mem_cons_of_mem _ hx)
    rw [List.cons_append]
    cases hq : q.name with
    | none =>
      rw [loop_unnamed_step h d _ q _ i w hq]
      obtain ⟨g1, ⟨last, g2⟩, g3⟩ :=
        ih (i + 1) (sp d (DriverCall.sp_get_port_name i) w).2 arr objs hrest
          (by rw [sp_heap]; exact hheap)
      refine ⟨g1, ⟨last, ?_⟩, ?_⟩
      · rw [g2]; simp [thrown_append, thrown]
      · rw [g3]
        simp [count_calls_append, count_calls_singleton, is_sp_free_port_list]
    | some n0 =>
      have hf : q.vid_pid_return = SP_OK ∨ q.vid_pid_return = SP_ERR_ARG :=
        hfine q (List.mem_cons_self _ _) (by rw [hq]; exact Option.noConfusion)
      obtain ⟨w1, hstep, hheap1, htrace1⟩ :=
        loop_named_step h d hh q (pre ++ p :: post) i w n0 hq hf H0 arr objs hheap
      rw [hstep]
      obtain ⟨g1, ⟨last, g2⟩, g3⟩ := ih (i + 1) w1 _ _ hrest hheap1
      refine ⟨g1, ⟨last, ?_⟩, ?_⟩
      · rw [g2, htrace1]; simp [thrown_append, thrown]
      · rw [g3, htrace1, count_calls_append]
        have hz : count_calls is_sp_free_port_list
            [Event.driver (DriverCall.sp_get_port_name i),
             Event.driver (DriverCall.sp_get_port_usb_vid_pid i)] = 0 := rfl
        rw [hz]

/-- With `napi_create_array` and `sp_list_ports` succeeding, `ListAllPorts` enters the loop
with a fresh empty array. -/
theorem ListAllPorts_eq (h : Host) (d : Driver) (w : World) (hh : h.ok)
    (hl : d.ret w.trace DriverCall.sp_list_ports = SP_OK) :
    ∃ W, ListAllPorts h d w =
        ListAllPorts_loop h d (napi_value.object w.heap.length) (d.port_list w.trace) 0 W ∧
      W.heap = w.heap ++ [{ byteLength := none, props := [], elems := [] }] ∧
      W.trace = w.trace ++ [Event.driver DriverCall.sp_list_ports] := by
  unfold ListAllPorts
  simp only [napi_create_array, NAPI_CHECK_napi_out h hh, alloc]
  rw [SP_CHECK_ok _ _ _ _ (by simpa [sp_list_ports] using hl)]
  exact ⟨_, rfl, rfl, rfl⟩


theorem entry_at_of_heap (H0 : List JsObject) (x : JsObject) (r : List JsObject) (j id : Nat)
    (o : JsObject) (hc : cell x.elems j = some (napi_value.object id))
    (ho : (H0 ++ x :: r)[id]? = some o) :
    entry_at (H0 ++ x :: r) (napi_value.object H0.length) j = some o.props := by
  simp only [entry_at, elems_of, props_of, getElem?_heap_array, Option.map_some',
    Option.getD_some, hc, ho]

/-- C9: the USB ids in `ListAllPorts`.  Every host call succeeds and `sp_list_ports`
returns `SP_OK`.  (1) When the lookup of every named port returns `SP_OK` or
`SP_ERR_ARG`, the array is returned and nothing is thrown; the descriptor of a named
port, found at the port's index, has `name`, `vendorId` and `productId` (the values
the driver stored) when the lookup returned `SP_OK`, and `name` only when it
returned `SP_ERR_ARG`.  (2) When the first named port whose lookup returns another
code is reached, the call returns NULL, throws exactly one error, with the text for
that code, and frees the port list exactly once: the enumeration is aborted and the
descriptors collected so far are not returned. -/
theorem ListAllPorts_usb_id_handling (h : Host) (d : Driver) (w : World) (hh : h.ok)
    (hl : d.ret w.trace DriverCall.sp_list_ports = SP_OK) :
    ((∀ p ∈ d.port_list w.trace, lookup_fine p) →
      (ListAllPorts h d w).1 = napi_value.object w.heap.length ∧
      thrown (ListAllPorts h d w).2.trace = thrown w.trace ∧
      count_calls is_sp_free_port_list (ListAllPorts h d w).2.trace =
        count_calls is_sp_free_port_list w.trace + 1 ∧
      ∀ j p n, (d.port_list w.trace)[j]? = some p → p.name = some n →
        (p.vid_pid_return = SP_OK →
          entry_at (ListAllPorts h d w).2.heap (ListAllPorts h d w).1 j =
            some [("name", napi_value.string n),
                  ("vendorId", napi_value.int32 p.usb_vid),
                  ("productId", napi_value.int32 p.usb_pid)]) ∧
        (p.vid_pid_return = SP_ERR_ARG →
          entry_at (ListAllPorts h d w).2.heap (ListAllPorts h d w).1 j =
            some [("name", napi_value.string n)])) ∧
    (∀ pre p post n, d.port_list w.trace = pre ++ p :: post →
      (∀ q ∈ pre, lookup_fine q) → p.name = some n →
      p.vid_pid_return ≠ SP_OK → p.vid_pid_return ≠ SP_ERR_ARG →
      (ListAllPorts h d w).1 = napi_value.null ∧
      (∃ last, thrown (ListAllPorts h d w).2.trace =
        thrown w.trace ++ [error_text p.vid_pid_return last]) ∧
      count_calls is_sp_free_port_list (ListAllPorts h d w).2.trace =
        count_calls is_sp_free_port_list w.trace + 1) := by
  obtain ⟨W, heq, hheap, htrace⟩ := ListAllPorts_eq h d w hh hl
  have hthrown : thrown W.trace = thrown w.trace := by
    rw [htrace]; simp [thrown_append, thrown]
  have hcount : count_calls is_sp_free_port_list W.trace =
      count_calls is_sp_free_port_list w.trace := by
    rw [htrace, count_calls_append]; rfl
  rw [heq]
  constructor
  · intro hfine
    obtain ⟨h1, h2, h3, E, D, h4, -, h6⟩ :=
      loop_fine h d hh w.heap (d.port_list w.trace) 0 W
        { byteLength := none, props := [], elems := [] } [] hfine hheap
    refine ⟨h1, by rw [h2, hthrown], by rw [h3, hcount], ?_⟩
    intro j p n hj hn
    obtain ⟨id, e1, e2⟩ := h6 j p n hj hn
    rw [Nat.zero_add] at e1
    have hentry := entry_at_of_heap w.heap
      { byteLength := none, props := [], elems := E } ([] ++ D) j id _ e1 e2
    rw [h1, h4, hentry]
    constructor
    · intro hok
      simp [descriptor, hok]
    · intro harg
      have hne : p.vid_pid_return ≠ SP_OK := by rw [harg]; decide
      simp [descriptor, hne]
  · intro pre p post n hports hpre hn hr1 hr2
    rw [hports]
    obtain ⟨g1, ⟨last, g2⟩, g3⟩ :=
      loop_abort h d hh w.heap p post n hn hr1 hr2 pre 0 W
        { byteLength := none, props := [], elems := [] } [] hpre hheap
    exact ⟨g1, ⟨last, by rw [g2, hthrown]⟩, by rw [g3, hcount]⟩

/-- C9, witness: a USB adapter and a plain port are both listed, the first with its
ids and the second with its name only; a lookup failing with `SP_ERR_SUPP` aborts the
call, which returns NULL. -/
theorem ListAllPorts_usb_id_handling_witness :
    okHost.ok ∧
    usbAndPlainDriver.ret openWorld.trace DriverCall.sp_list_ports = SP_OK ∧
    entry_at (ListAllPorts okHost usbAndPlainDriver openWorld).2.heap
        (ListAllPorts okHost usbAndPlainDriver openWorld).1 0 =
      some [("name", napi_value.string "ttyUSB0"),
            ("vendorId", napi_value.int32 1027),
            ("productId", napi_value.int32 24577)] ∧
    entry_at (ListAllPorts okHost usbAndPlainDriver openWorld).2.heap
        (ListAllPorts okHost usbAndPlainDriver openWorld).1 1 =
      some [("name", napi_value.string "ttyS0")] ∧
    (ListAllPorts okHost lookupFailingDriver openWorld).1 = napi_value.null := by
  have hfine : ∀ p ∈ usbAndPlainDriver.port_list openWorld.trace, lookup_fine p := by
    intro p hp
    simp only [usbAndPlainDriver, simpleDriver, List.mem_cons, List.mem_singleton,
      List.not_mem_nil, or_false] at hp
    rcases hp with rfl | rfl
    · exact fun _ => Or.inl rfl
    · exact fun _ => Or.inr rfl
  have hpre : ∀ q ∈ (lookupFailingDriver.port_list openWorld.trace).take 1,
      lookup_fine q := by
    intro q hq
    simp only [lookupFailingDriver, simpleDriver, List.take_succ_cons, List.take_zero,
      List.mem_singleton] at hq
    subst hq
    exact fun _ => Or.inr rfl
  exact ⟨fun _ => rfl, rfl,
    ((((ListAllPorts_usb_id_handling okHost usbAndPlainDriver openWorld (fun _ => rfl) rfl).1
      hfine).2.2.2 0 _ _ rfl rfl).1 rfl),
    ((((ListAllPorts_usb_id_handling okHost usbAndPlainDriver openWorld (fun _ => rfl) rfl).1
      hfine).2.2.2 1 _ _ rfl rfl).2 rfl),
    ((ListAllPorts_usb_id_handling okHost lookupFailingDriver openWorld (fun _ => rfl) rfl).2
      _ _ [] "ttyUSB1" rfl hpre rfl (by decide) (by decide)).1⟩

/-! ## C11: destruction -/

/-- C11: destruction releases the port exactly when it is still held.  For every
handle that holds a port `p`, the destructor issues exactly `sp_close` on `p`
followed by `sp_free_port` on `p` and leaves the handle holding no port.  A handle
that holds no port is destroyed without any driver call; in particular, after
`close_port` the destructor issues no further close or free. -/
theorem destructor_releases_held_port (d : Driver) (h : Host) (w : World) :
    (∀ p, w.port_ = some p →
      (SerialHandle_destructor d h w).trace =
        w.trace ++ [Event.driver (DriverCall.sp_close (some p)),
                    Event.driver (DriverCall.sp_free_port (some p))] ∧
      (SerialHandle_destructor d h w).port_ = none) ∧
    (w.port_ = none →
      (SerialHandle_destructor d h w).trace = w.trace ∧
      (SerialHandle_destructor d h w).port_ = none) ∧
    (SerialHandle_destructor d h (close_port d w).2).trace = (close_port d w).2.trace ∧
    (SerialHandle_destructor d h (close_port d w).2).port_ = none := by
  refine ⟨fun p hp => ?_, fun hp => ?_, ?_, ?_⟩
  · simp [SerialHandle_destructor, hp]
  · simp [SerialHandle_destructor, hp]
  · simp [SerialHandle_destructor, close_port]
  · simp [SerialHandle_destructor, close_port]

/-- C11, witness: the handle holding port 7 is destroyed with one close and one free;
destroyed after `close_port`, only the close of `close_port` is in the trace. -/
theorem destructor_releases_held_port_witness :
    (SerialHandle_destructor allOkDriver okHost openWorld).trace =
      [Event.driver (DriverCall.sp_close (some 7)),
       Event.driver (DriverCall.sp_free_port (some 7))] ∧
    (SerialHandle_destructor allOkDriver okHost openWorld).port_ = none ∧
    (SerialHandle_destructor allOkDriver okHost (close_port allOkDriver openWorld).2).trace =
      [Event.driver (DriverCall.sp_close (some 7))] :=
  ⟨((destructor_releases_held_port allOkDriver okHost openWorld).1 7 rfl).1,
   ((destructor_releases_held_port allOkDriver okHost openWorld).1 7 rfl).2,
   (destructor_releases_held_port allOkDriver okHost openWorld).2.2.1⟩

/-! ## C12: the errors raised by `SP_CHECK` -/

/-- C12, at the failing input: `ClosePort` on the handle holding port 7, with a
driver whose `sp_close` fails with `SP_ERR_FAIL` on the port.  The argument of
`SP_CHECK` is the call `handle->close_port()`: its first evaluation returns
`SP_ERR_FAIL`, the `switch` evaluates it again, now on the cleared handle, and
gets `SP_ERR_ARG`.  The error thrown is `Invalid argument`; the driver's message is
neither fetched nor released. -/
theorem SP_CHECK_reports_second_evaluation :
    (close_port closeFailingDriver openWorld).1 = SP_ERR_FAIL ∧
    closeFailingDriver.last_error_message [] = "Input/output error" ∧
    ClosePort okHost closeFailingDriver openWorld =
      (napi_value.null,
       { port_ := none,
         trace := [Event.driver (DriverCall.sp_close (some 7)),
                   Event.driver (DriverCall.sp_close none),
                   Event.napi_throw_error "Invalid argument",
                   Event.driver (DriverCall.sp_close none)],
         napi_calls := 2,
         heap := [] }) := by
  refine ⟨?_, ?_, ?_⟩ <;> decide

/-- When the argument of `SP_CHECK` is a variable, the macro does what its `switch`
says: `SP_OK` goes on with the rest of the function; any other code returns NULL
and throws exactly one error, with the text for the code; the driver's message is
fetched before and released after the throw exactly when the code is
`SP_ERR_FAIL`. -/
theorem SP_CHECK_of_variable (d : Driver) (r : sp_return) (k : Unit → M napi_value)
    (w : World) :
    (r = SP_OK → SP_CHECK d (read_var r) k w = k () w) ∧
    (r = SP_ERR_FAIL →
      (SP_CHECK d (read_var r) k w).1 = napi_value.null ∧
      (SP_CHECK d (read_var r) k w).2.trace = w.trace ++
        [Event.driver DriverCall.sp_last_error_message,
         Event.napi_throw_error (d.last_error_message w.trace),
         Event.driver DriverCall.sp_free_error_message]) ∧
    (r ≠ SP_OK → r ≠ SP_ERR_FAIL →
      (SP_CHECK d (read_var r) k w).1 = napi_value.null ∧
      (SP_CHECK d (read_var r) k w).2.trace = w.trace ++
        [Event.napi_throw_error
          (if r = SP_ERR_ARG then "Invalid argument"
           else if r = SP_ERR_SUPP then "Not supported"
           else if r = SP_ERR_MEM then "Out of memory"
           else "Unknown serial port error")]) := by
  refine ⟨fun h0 => ?_, fun hf => ?_, fun h0 hf => ?_⟩
  · simp [SP_CHECK, read_var, h0]
  · have e1 : SP_ERR_FAIL ≠ SP_OK := by decide
    have e2 : SP_ERR_FAIL ≠ SP_ERR_ARG := by decide
    subst hf
    simp [SP_CHECK, read_var, SP_CHECK_message, napi_throw_error, sp, e1, e2]
  · unfold SP_CHECK SP_CHECK_message
    simp only [read_var, h0, hf, ne_eq, not_false_eq_true, if_true, if_false]
    split_ifs <;> simp [napi_throw_error]

/-! ## C13: a failed host call -/

/-- A failed host call with no exception pending: `NAPI_CHECK` throws one error (the
host's message, or `msg` when there is none), returns NULL and runs nothing of the
rest of the function. -/
theorem NAPI_CHECK_not_pending {α : Type} (h : Host) (status : M (napi_status × α))
    (msg : String) (k : α → M napi_value) (w : World)
    (hs : (status w).1.1 ≠ napi_ok) (hp : h.is_pending (status w).2.napi_calls = false) :
    NAPI_CHECK h status msg k w =
      (napi_value.null,
       napi_throw_error ((h.error_message (status w).2.napi_calls).getD msg) (status w).2) := by
  unfold NAPI_CHECK
  simp [hs, hp]

/-- A failed host call with an exception pending: `NAPI_CHECK` does nothing and the
rest of the function runs. -/
theorem NAPI_CHECK_pending {α : Type} (h : Host) (status : M (napi_status × α))
    (msg : String) (k : α → M napi_value) (w : World)
    (hp : h.is_pending (status w).2.napi_calls = true) :
    NAPI_CHECK h status msg k w = k (status w).1.2 (status w).2 := by
  unfold NAPI_CHECK
  simp [hp]

/-- C13, at the failing input: `ListAllPorts` over the single port `ttyS0`, in a host
where storing the property `name` raises an exception (status
`napi_pending_exception`, exception pending).  `sp_list_ports` succeeded.  The
function frees the port list and `NAPI_CHECK` does not return: the loop goes on,
the list is freed again after the next failed call, the freed port is passed to
`sp_get_port_usb_vid_pid`, and the list is freed a third time after the loop.  The
function returns the array instead of NULL. -/
theorem ListAllPorts_continues_after_failed_call :
    onePortDriver.ret [] DriverCall.sp_list_ports = SP_OK ∧
    setterThrowsHost.status 3 ≠ napi_ok ∧
    (ListAllPorts setterThrowsHost onePortDriver openWorld).1 = napi_value.object 0 ∧
    (ListAllPorts setterThrowsHost onePortDriver openWorld).2.trace =
      [Event.driver DriverCall.sp_list_ports,
       Event.driver (DriverCall.sp_get_port_name 0),
       Event.driver DriverCall.sp_free_port_list,
       Event.driver DriverCall.sp_free_port_list,
       Event.driver (DriverCall.sp_get_port_usb_vid_pid 0),
       Event.driver DriverCall.sp_free_port_list] ∧
    count_calls is_sp_free_port_list
      (ListAllPorts setterThrowsHost onePortDriver openWorld).2.trace = 3 := by
  refine ⟨?_, ?_, ?_, ?_, ?_⟩ <;> decide

end WebSerial
